import Mathlib

/-!
Verification of `merge_request_approvals.go` (go-gitlab).

The file under verification is a binding layer over the GitLab merge request
approvals REST API.  Its five exposed methods each parse a project identifier,
format a URL path, build a request through the shared client, perform one
request/response cycle, and return the decoded result or the propagated error.

The shallow embedding below translates each method body from the Go source.
The surrounding client (`parseID`, `pathEscape`, `Client.NewRequest`,
`Client.Do`) lives outside the verified file; its behaviour is modelled from
the specification as an abstract environment carried by the `Client` record.
Each method returns, besides the Go results, the list of events it performed
(request construction and request/response cycles) and the final values of the
mutable state it can reach (the service struct and the options struct), so
that effect and frame properties can be stated.
-/

/-- Modelled from the spec: a Go `error` value, surfaced unchanged to callers. -/
structure GoError where
  msg : String
deriving DecidableEq, Repr, Inhabited

/-- Modelled from the spec: a `time.Time` timestamp carried by response DTOs. -/
structure GoTime where
  unixNano : Int
deriving DecidableEq, Repr, Inhabited

/-- Modelled from the spec: the `BasicUser` DTO defined elsewhere in the
repository; a plain record mirroring server-side JSON. -/
structure BasicUser where
  id : Int
  username : String
  name : String
deriving DecidableEq, Repr, Inhabited

/-- Modelled from the spec: the `MergeRequest` DTO defined elsewhere in the
repository, the decode target of the two methods returning `*MergeRequest`. -/
structure MergeRequest where
  id : Int
  iid : Int
  title : String
deriving DecidableEq, Repr, Inhabited

/-- Modelled from the spec: an HTTP response (`*Response`) as produced by the
shared client's request/response cycle. -/
structure Response where
  statusCode : Int
  body : String
deriving DecidableEq, Repr, Inhabited

/-- Modelled from the spec: an opaque request option (`OptionFunc`) passed
through to the shared client's request construction. -/
structure OptionFunc where
  tag : Nat
deriving DecidableEq, Repr, Inhabited

/-- Modelled from the spec: the dynamic value passed as the `pid interface{}`
argument; `parseID` accepts ints and strings and rejects anything else. -/
inductive PID where
  | ofInt (n : Int)
  | ofString (s : String)
  | other (descr : String)
deriving DecidableEq, Repr, Inhabited

/-- Modelled from the spec: the package-level `parseID` helper (defined
outside the verified file) that turns a project identifier into a path
segment, rejecting values that are neither ints nor strings. -/
def parseID : PID → Except GoError String
  | .ofInt n => .ok (toString n)
  | .ofString s => .ok s
  | .other d => .error ⟨"invalid ID type " ++ d ++ ", the ID must be an int or a string"⟩

/-- Source: `MergeRequestApproverUser` from the source: wraps a user pointer. -/
structure MergeRequestApproverUser where
  user : Option BasicUser
deriving DecidableEq, Repr, Inhabited

/-- The anonymous group record nested in `MergeRequestApproverGroup`. -/
structure ApproverGroupInfo where
  id : Int
  name : String
  path : String
  description : String
  visibility : String
  avatarURL : String
  webURL : String
  fullName : String
  fullPath : String
  lfsEnabled : Bool
  requestAccessEnabled : Bool
deriving DecidableEq, Repr, Inhabited

/-- Source: `MergeRequestApproverGroup` from the source. -/
structure MergeRequestApproverGroup where
  group : ApproverGroupInfo
deriving DecidableEq, Repr, Inhabited

/-- Source: `MergeRequestApprovals` from the source: the decode target of
`ApproveMergeRequest` and `ChangeProjectMergeRequestApprovalConfiguration`.
Go pointers become `Option`, slices become `List`. -/
structure MergeRequestApprovals where
  id : Int
  projectID : Int
  title : String
  description : String
  state : String
  createdAt : Option GoTime
  updatedAt : Option GoTime
  mergeStatus : String
  approvalsBeforeMerge : Int
  approvalsRequired : Int
  approvalsLeft : Int
  approvedBy : List MergeRequestApproverUser
  approvers : List MergeRequestApproverUser
  approverGroups : List MergeRequestApproverGroup
  suggestedApprovers : List BasicUser
deriving DecidableEq, Repr, Inhabited

/-- Source: `ApproveMergeRequestOptions` from the source. -/
structure ApproveMergeRequestOptions where
  sha : Option String
deriving DecidableEq, Repr, Inhabited

/-- Source: `ChangeMergeRequestApprovalConfigurationOptions` from the source. -/
structure ChangeMergeRequestApprovalConfigurationOptions where
  approvalsRequired : Option Int
deriving DecidableEq, Repr, Inhabited

/-- Source: `ChangeMergeRequestAllowedApproversOptions` from the source. -/
structure ChangeMergeRequestAllowedApproversOptions where
  approverIDs : List Int
  approverGroupIDs : List Int
deriving DecidableEq, Repr, Inhabited

/-- Source: `ProjectMergeRequestApprovalSettings` from the source. -/
structure ProjectMergeRequestApprovalSettings where
  approvalsBeforeMerge : Option Int
  disableOverridingApproversPerMergeRequest : Option Bool
  mergeRequestsAuthorApproval : Option Bool
  mergeRequestsDisableCommittersApproval : Option Bool
  resetApprovalsOnPush : Option Bool
deriving DecidableEq, Repr, Inhabited

/-- The serialized options attached to a request: one constructor per options
type occurring in the file, plus `empty` for the literal `nil` body. -/
inductive RequestBody where
  | empty
  | approve (o : Option ApproveMergeRequestOptions)
  | changeConfig (o : Option ChangeMergeRequestApprovalConfigurationOptions)
  | allowedApprovers (o : Option ChangeMergeRequestAllowedApproversOptions)
  | projectSettings (o : Option ProjectMergeRequestApprovalSettings)
deriving DecidableEq, Repr, Inhabited

/-- A built HTTP request: verb, URL path, serialized options, request options. -/
structure Request where
  method : String
  url : String
  body : RequestBody
  options : List OptionFunc
deriving DecidableEq, Repr, Inhabited

/-- The decode target handed to the client's `Do`: a typed pointer for the
struct-returning methods, or `noTarget` when the Go code passes `nil`. -/
inductive DoTarget where
  | approvals
  | mergeRequest
  | noTarget
deriving DecidableEq, Repr, Inhabited

/-- Outcome of one request/response cycle: success with a response (the body
then decodes into the target), or failure with an optional response and an
error (transport and decode failures alike). -/
inductive DoResult where
  | ok (resp : Response)
  | fail (resp : Option Response) (err : GoError)
deriving DecidableEq, Repr, Inhabited

/-- Events a method can perform: building a request, or one request/response
cycle through the shared client. -/
inductive Event where
  | build (method url : String) (body : RequestBody) (options : List OptionFunc)
  | doCall (req : Request) (target : DoTarget)
deriving DecidableEq, Repr, Inhabited

/-- Modelled from the spec: the shared `*Client`. `newRequestFail` says when
request construction fails; `doRun` is the request/response cycle; the two
decode functions give the struct a successful response body decodes into. -/
structure Client where
  newRequestFail : String → String → RequestBody → List OptionFunc → Option GoError
  doRun : Request → DoTarget → DoResult
  decodeApprovals : Response → MergeRequestApprovals
  decodeMergeRequest : Response → MergeRequest

/-- Modelled from the spec: `Client.NewRequest` serializes the options and
builds the request for the given verb and path, or fails with an error. -/
def Client.newRequest (c : Client) (method u : String) (body : RequestBody)
    (options : List OptionFunc) : Except GoError Request :=
  match c.newRequestFail method u body options with
  | some e => .error e
  | none => .ok ⟨method, u, body, options⟩

/-- Source: `MergeRequestApprovalsService` from the source: holds the client reference. -/
structure MergeRequestApprovalsService where
  client : Client

/-- Result of a struct-returning method: the decoded value, the response, the
error, the events performed, and the final values of the reachable mutable
state (the service struct and the options struct) for frame reasoning. -/
structure Outcome (α β : Type) where
  value : Option α
  resp : Option Response
  err : Option GoError
  trace : List Event
  sFinal : MergeRequestApprovalsService
  optFinal : β

/-- Result of `UnapproveMergeRequest`, which returns no decoded struct. -/
structure RespOutcome where
  resp : Option Response
  err : Option GoError
  trace : List Event
  sFinal : MergeRequestApprovalsService

/-- Source: `ApproveMergeRequest` from the source: POST
`projects/%s/merge_requests/%d/approve`, decode into `MergeRequestApprovals`.
`pesc` stands for the package-level `pathEscape` helper defined outside the
verified file. -/
def MergeRequestApprovalsService.ApproveMergeRequest
    (s : MergeRequestApprovalsService) (pesc : String → String)
    (pid : PID) (mr : Int) (opt : Option ApproveMergeRequestOptions)
    (options : List OptionFunc) :
    Outcome MergeRequestApprovals (Option ApproveMergeRequestOptions) :=
  match parseID pid with
  | .error err => ⟨none, none, some err, [], s, opt⟩
  | .ok project =>
    let u := "projects/" ++ pesc project ++ "/merge_requests/" ++ toString mr ++ "/approve"
    match s.client.newRequest "POST" u (.approve opt) options with
    | .error err => ⟨none, none, some err, [.build "POST" u (.approve opt) options], s, opt⟩
    | .ok req =>
      match s.client.doRun req .approvals with
      | .fail resp err =>
        ⟨none, resp, some err,
          [.build "POST" u (.approve opt) options, .doCall req .approvals], s, opt⟩
      | .ok resp =>
        ⟨some (s.client.decodeApprovals resp), some resp, none,
          [.build "POST" u (.approve opt) options, .doCall req .approvals], s, opt⟩

/-- Source: `UnapproveMergeRequest` from the source: POST
`projects/%s/merge_requests/%d/unapprove` with a `nil` body and a `nil`
decode target; returns `s.client.Do(req, nil)` directly. -/
def MergeRequestApprovalsService.UnapproveMergeRequest
    (s : MergeRequestApprovalsService) (pesc : String → String)
    (pid : PID) (mr : Int) (options : List OptionFunc) : RespOutcome :=
  match parseID pid with
  | .error err => ⟨none, some err, [], s⟩
  | .ok project =>
    let u := "projects/" ++ pesc project ++ "/merge_requests/" ++ toString mr ++ "/unapprove"
    match s.client.newRequest "POST" u .empty options with
    | .error err => ⟨none, some err, [.build "POST" u .empty options], s⟩
    | .ok req =>
      match s.client.doRun req .noTarget with
      | .fail resp err =>
        ⟨resp, some err, [.build "POST" u .empty options, .doCall req .noTarget], s⟩
      | .ok resp =>
        ⟨some resp, none, [.build "POST" u .empty options, .doCall req .noTarget], s⟩

/-- Source: `ChangeApprovalConfiguration` from the source: POST
`projects/%s/merge_requests/%d/approvals`, decode into `MergeRequest`. -/
def MergeRequestApprovalsService.ChangeApprovalConfiguration
    (s : MergeRequestApprovalsService) (pesc : String → String)
    (pid : PID) (mergeRequestIID : Int)
    (opt : Option ChangeMergeRequestApprovalConfigurationOptions)
    (options : List OptionFunc) :
    Outcome MergeRequest (Option ChangeMergeRequestApprovalConfigurationOptions) :=
  match parseID pid with
  | .error err => ⟨none, none, some err, [], s, opt⟩
  | .ok project =>
    let u := "projects/" ++ pesc project ++ "/merge_requests/" ++
      toString mergeRequestIID ++ "/approvals"
    match s.client.newRequest "POST" u (.changeConfig opt) options with
    | .error err => ⟨none, none, some err, [.build "POST" u (.changeConfig opt) options], s, opt⟩
    | .ok req =>
      match s.client.doRun req .mergeRequest with
      | .fail resp err =>
        ⟨none, resp, some err,
          [.build "POST" u (.changeConfig opt) options, .doCall req .mergeRequest], s, opt⟩
      | .ok resp =>
        ⟨some (s.client.decodeMergeRequest resp), some resp, none,
          [.build "POST" u (.changeConfig opt) options, .doCall req .mergeRequest], s, opt⟩

/-- Source: `ChangeAllowedApprovers` from the source: PUT
`projects/%s/merge_requests/%d/approvers`, decode into `MergeRequest`. -/
def MergeRequestApprovalsService.ChangeAllowedApprovers
    (s : MergeRequestApprovalsService) (pesc : String → String)
    (pid : PID) (mergeRequestIID : Int)
    (opt : Option ChangeMergeRequestAllowedApproversOptions)
    (options : List OptionFunc) :
    Outcome MergeRequest (Option ChangeMergeRequestAllowedApproversOptions) :=
  match parseID pid with
  | .error err => ⟨none, none, some err, [], s, opt⟩
  | .ok project =>
    let u := "projects/" ++ pesc project ++ "/merge_requests/" ++
      toString mergeRequestIID ++ "/approvers"
    match s.client.newRequest "PUT" u (.allowedApprovers opt) options with
    | .error err =>
      ⟨none, none, some err, [.build "PUT" u (.allowedApprovers opt) options], s, opt⟩
    | .ok req =>
      match s.client.doRun req .mergeRequest with
      | .fail resp err =>
        ⟨none, resp, some err,
          [.build "PUT" u (.allowedApprovers opt) options, .doCall req .mergeRequest], s, opt⟩
      | .ok resp =>
        ⟨some (s.client.decodeMergeRequest resp), some resp, none,
          [.build "PUT" u (.allowedApprovers opt) options, .doCall req .mergeRequest], s, opt⟩

/-- Source: `ChangeProjectMergeRequestApprovalConfiguration` from the source: POST
`projects/%s/approvals` (project level, no merge request segment), decode
into `MergeRequestApprovals`. -/
def MergeRequestApprovalsService.ChangeProjectMergeRequestApprovalConfiguration
    (s : MergeRequestApprovalsService) (pesc : String → String)
    (pid : PID) (opt : Option ProjectMergeRequestApprovalSettings)
    (options : List OptionFunc) :
    Outcome MergeRequestApprovals (Option ProjectMergeRequestApprovalSettings) :=
  match parseID pid with
  | .error err => ⟨none, none, some err, [], s, opt⟩
  | .ok project =>
    let u := "projects/" ++ pesc project ++ "/approvals"
    match s.client.newRequest "POST" u (.projectSettings opt) options with
    | .error err =>
      ⟨none, none, some err, [.build "POST" u (.projectSettings opt) options], s, opt⟩
    | .ok req =>
      match s.client.doRun req .approvals with
      | .fail resp err =>
        ⟨none, resp, some err,
          [.build "POST" u (.projectSettings opt) options, .doCall req .approvals], s, opt⟩
      | .ok resp =>
        ⟨some (s.client.decodeApprovals resp), some resp, none,
          [.build "POST" u (.projectSettings opt) options, .doCall req .approvals], s, opt⟩

/-- Is this event a request/response cycle (a `Do` call)? -/
def Event.isDo : Event → Bool
  | .doCall _ _ => true
  | .build _ _ _ _ => false

/-- Number of request/response cycles in a trace. -/
def doCount (t : List Event) : Nat := (t.filter Event.isDo).length

/-- The HTTP verb carried by an event. -/
def Event.verb : Event → String
  | .build m _ _ _ => m
  | .doCall req _ => req.method

/-- A client whose request construction and cycles always succeed, used to
instantiate proved statements on concrete inputs. -/
def okClient : Client where
  newRequestFail := fun _ _ _ _ => none
  doRun := fun _ _ => .ok ⟨200, "ok"⟩
  decodeApprovals := fun _ => default
  decodeMergeRequest := fun _ => default

/-- A client whose request/response cycle fails with a transport error that
still carries a (non-nil) response, used to instantiate error paths. -/
def failClient : Client where
  newRequestFail := fun _ _ _ _ => none
  doRun := fun _ _ => .fail (some ⟨502, "bad gateway"⟩) ⟨"transport failure"⟩
  decodeApprovals := fun _ => default
  decodeMergeRequest := fun _ => default

/-- A service wired to the always-succeeding client. -/
def okService : MergeRequestApprovalsService := ⟨okClient⟩

/-- A service wired to the failing client. -/
def failService : MergeRequestApprovalsService := ⟨failClient⟩

/-- Exhaustive run analysis of `ApproveMergeRequest`: exactly one of the four
source paths is taken (parse failure, build failure, cycle failure, success),
each fully determining the outcome record. -/
theorem ApproveMergeRequest_run_cases
    (s : MergeRequestApprovalsService) (pesc : String → String) (pid : PID)
    (mr : Int) (opt : Option ApproveMergeRequestOptions) (options : List OptionFunc) :
    (∃ e, parseID pid = .error e ∧
      s.ApproveMergeRequest pesc pid mr opt options = ⟨none, none, some e, [], s, opt⟩) ∨
    (∃ project e, parseID pid = .ok project ∧
      s.client.newRequestFail "POST"
        ("projects/" ++ pesc project ++ "/merge_requests/" ++ toString mr ++ "/approve")
        (.approve opt) options = some e ∧
      s.ApproveMergeRequest pesc pid mr opt options =
        ⟨none, none, some e,
          [.build "POST"
            ("projects/" ++ pesc project ++ "/merge_requests/" ++ toString mr ++ "/approve")
            (.approve opt) options], s, opt⟩) ∨
    (∃ project r e, parseID pid = .ok project ∧
      s.client.newRequestFail "POST"
        ("projects/" ++ pesc project ++ "/merge_requests/" ++ toString mr ++ "/approve")
        (.approve opt) options = none ∧
      s.client.doRun
        ⟨"POST", "projects/" ++ pesc project ++ "/merge_requests/" ++ toString mr ++ "/approve",
          .approve opt, options⟩ .approvals = .fail r e ∧
      s.ApproveMergeRequest pesc pid mr opt options =
        ⟨none, r, some e,
          [.build "POST"
            ("projects/" ++ pesc project ++ "/merge_requests/" ++ toString mr ++ "/approve")
            (.approve opt) options,
           .doCall
            ⟨"POST",
              "projects/" ++ pesc project ++ "/merge_requests/" ++ toString mr ++ "/approve",
              .approve opt, options⟩ .approvals], s, opt⟩) ∨
    (∃ project resp, parseID pid = .ok project ∧
      s.client.newRequestFail "POST"
        ("projects/" ++ pesc project ++ "/merge_requests/" ++ toString mr ++ "/approve")
        (.approve opt) options = none ∧
      s.client.doRun
        ⟨"POST", "projects/" ++ pesc project ++ "/merge_requests/" ++ toString mr ++ "/approve",
          .approve opt, options⟩ .approvals = .ok resp ∧
      s.ApproveMergeRequest pesc pid mr opt options =
        ⟨some (s.client.decodeApprovals resp), some resp, none,
          [.build "POST"
            ("projects/" ++ pesc project ++ "/merge_requests/" ++ toString mr ++ "/approve")
            (.approve opt) options,
           .doCall
            ⟨"POST",
              "projects/" ++ pesc project ++ "/merge_requests/" ++ toString mr ++ "/approve",
              .approve opt, options⟩ .approvals], s, opt⟩) := by
  cases hp : parseID pid with
  | error e =>
    exact Or.inl ⟨e, rfl, by simp [MergeRequestApprovalsService.ApproveMergeRequest, hp]⟩
  | ok project =>
    cases hn : s.client.newRequestFail "POST"
        ("projects/" ++ pesc project ++ "/merge_requests/" ++ toString mr ++ "/approve")
        (.approve opt) options with
    | some e =>
      exact Or.inr (Or.inl ⟨project, e, rfl, hn, by
        simp [MergeRequestApprovalsService.ApproveMergeRequest, hp, Client.newRequest, hn]⟩)
    | none =>
      cases hd : s.client.doRun
          ⟨"POST", "projects/" ++ pesc project ++ "/merge_requests/" ++ toString mr ++ "/approve",
            .approve opt, options⟩ .approvals with
      | fail r e =>
        exact Or.inr (Or.inr (Or.inl ⟨project, r, e, rfl, hn, hd, by
          simp [MergeRequestApprovalsService.ApproveMergeRequest, hp, Client.newRequest, hn, hd]⟩))
      | ok resp =>
        exact Or.inr (Or.inr (Or.inr ⟨project, resp, rfl, hn, hd, by
          simp [MergeRequestApprovalsService.ApproveMergeRequest, hp, Client.newRequest, hn, hd]⟩))

/-- Exhaustive run analysis of `ChangeApprovalConfiguration`: exactly one of the four source paths
is taken, each fully determining the outcome record. -/
theorem ChangeApprovalConfiguration_run_cases
    (s : MergeRequestApprovalsService) (pesc : String → String) (pid : PID)
    (mergeRequestIID : Int) (opt : Option ChangeMergeRequestApprovalConfigurationOptions) (options : List OptionFunc) :
    (∃ e, parseID pid = .error e ∧
      s.ChangeApprovalConfiguration pesc pid mergeRequestIID opt options = ⟨none, none, some e, [], s, opt⟩) ∨
    (∃ project e, parseID pid = .ok project ∧
      s.client.newRequestFail "POST"
        ("projects/" ++ pesc project ++ "/merge_requests/" ++ toString mergeRequestIID ++ "/approvals")
        (.changeConfig opt) options = some e ∧
      s.ChangeApprovalConfiguration pesc pid mergeRequestIID opt options =
        ⟨none, none, some e,
          [.build "POST"
        ("projects/" ++ pesc project ++ "/merge_requests/" ++ toString mergeRequestIID ++ "/approvals")
        (.changeConfig opt) options], s, opt⟩) ∨
    (∃ project r e, parseID pid = .ok project ∧
      s.client.newRequestFail "POST"
        ("projects/" ++ pesc project ++ "/merge_requests/" ++ toString mergeRequestIID ++ "/approvals")
        (.changeConfig opt) options = none ∧
      s.client.doRun
        ⟨"POST", "projects/" ++ pesc project ++ "/merge_requests/" ++ toString mergeRequestIID ++ "/approvals", .changeConfig opt, options⟩ .mergeRequest = .fail r e ∧
      s.ChangeApprovalConfiguration pesc pid mergeRequestIID opt options =
        ⟨none, r, some e,
          [.build "POST"
        ("projects/" ++ pesc project ++ "/merge_requests/" ++ toString mergeRequestIID ++ "/approvals")
        (.changeConfig opt) options,
           .doCall
            ⟨"POST", "projects/" ++ pesc project ++ "/merge_requests/" ++ toString mergeRequestIID ++ "/approvals", .changeConfig opt, options⟩ .mergeRequest], s, opt⟩) ∨
    (∃ project resp, parseID pid = .ok project ∧
      s.client.newRequestFail "POST"
        ("projects/" ++ pesc project ++ "/merge_requests/" ++ toString mergeRequestIID ++ "/approvals")
        (.changeConfig opt) options = none ∧
      s.client.doRun
        ⟨"POST", "projects/" ++ pesc project ++ "/merge_requests/" ++ toString mergeRequestIID ++ "/approvals", .changeConfig opt, options⟩ .mergeRequest = .ok resp ∧
      s.ChangeApprovalConfiguration pesc pid mergeRequestIID opt options =
        ⟨some (s.client.decodeMergeRequest resp), some resp, none,
          [.build "POST"
        ("projects/" ++ pesc project ++ "/merge_requests/" ++ toString mergeRequestIID ++ "/approvals")
        (.changeConfig opt) options,
           .doCall
            ⟨"POST", "projects/" ++ pesc project ++ "/merge_requests/" ++ toString mergeRequestIID ++ "/approvals", .changeConfig opt, options⟩ .mergeRequest], s, opt⟩) := by
  cases hp : parseID pid with
  | error e =>
    exact Or.inl ⟨e, rfl, by simp [MergeRequestApprovalsService.ChangeApprovalConfiguration, hp]⟩
  | ok project =>
    cases hn : s.client.newRequestFail "POST"
        ("projects/" ++ pesc project ++ "/merge_requests/" ++ toString mergeRequestIID ++ "/approvals")
        (.changeConfig opt) options with
    | some e =>
      exact Or.inr (Or.inl ⟨project, e, rfl, hn, by
        simp [MergeRequestApprovalsService.ChangeApprovalConfiguration, hp, Client.newRequest, hn]⟩)
    | none =>
      cases hd : s.client.doRun
          ⟨"POST", "projects/" ++ pesc project ++ "/merge_requests/" ++ toString mergeRequestIID ++ "/approvals", .changeConfig opt, options⟩ .mergeRequest with
      | fail r e =>
        exact Or.inr (Or.inr (Or.inl ⟨project, r, e, rfl, hn, hd, by
          simp [MergeRequestApprovalsService.ChangeApprovalConfiguration, hp, Client.newRequest, hn, hd]⟩))
      | ok resp =>
        exact Or.inr (Or.inr (Or.inr ⟨project, resp, rfl, hn, hd, by
          simp [MergeRequestApprovalsService.ChangeApprovalConfiguration, hp, Client.newRequest, hn, hd]⟩))

/-- Exhaustive run analysis of `ChangeAllowedApprovers`: exactly one of the four source paths
is taken, each fully determining the outcome record. -/
theorem ChangeAllowedApprovers_run_cases
    (s : MergeRequestApprovalsService) (pesc : String → String) (pid : PID)
    (mergeRequestIID : Int) (opt : Option ChangeMergeRequestAllowedApproversOptions) (options : List OptionFunc) :
    (∃ e, parseID pid = .error e ∧
      s.ChangeAllowedApprovers pesc pid mergeRequestIID opt options = ⟨none, none, some e, [], s, opt⟩) ∨
    (∃ project e, parseID pid = .ok project ∧
      s.client.newRequestFail "PUT"
        ("projects/" ++ pesc project ++ "/merge_requests/" ++ toString mergeRequestIID ++ "/approvers")
        (.allowedApprovers opt) options = some e ∧
      s.ChangeAllowedApprovers pesc pid mergeRequestIID opt options =
        ⟨none, none, some e,
          [.build "PUT"
        ("projects/" ++ pesc project ++ "/merge_requests/" ++ toString mergeRequestIID ++ "/approvers")
        (.allowedApprovers opt) options], s, opt⟩) ∨
    (∃ project r e, parseID pid = .ok project ∧
      s.client.newRequestFail "PUT"
        ("projects/" ++ pesc project ++ "/merge_requests/" ++ toString mergeRequestIID ++ "/approvers")
        (.allowedApprovers opt) options = none ∧
      s.client.doRun
        ⟨"PUT", "projects/" ++ pesc project ++ "/merge_requests/" ++ toString mergeRequestIID ++ "/approvers", .allowedApprovers opt, options⟩ .mergeRequest = .fail r e ∧
      s.ChangeAllowedApprovers pesc pid mergeRequestIID opt options =
        ⟨none, r, some e,
          [.build "PUT"
        ("projects/" ++ pesc project ++ "/merge_requests/" ++ toString mergeRequestIID ++ "/approvers")
        (.allowedApprovers opt) options,
           .doCall
            ⟨"PUT", "projects/" ++ pesc project ++ "/merge_requests/" ++ toString mergeRequestIID ++ "/approvers", .allowedApprovers opt, options⟩ .mergeRequest], s, opt⟩) ∨
    (∃ project resp, parseID pid = .ok project ∧
      s.client.newRequestFail "PUT"
        ("projects/" ++ pesc project ++ "/merge_requests/" ++ toString mergeRequestIID ++ "/approvers")
        (.allowedApprovers opt) options = none ∧
      s.client.doRun
        ⟨"PUT", "projects/" ++ pesc project ++ "/merge_requests/" ++ toString mergeRequestIID ++ "/approvers", .allowedApprovers opt, options⟩ .mergeRequest = .ok resp ∧
      s.ChangeAllowedApprovers pesc pid mergeRequestIID opt options =
        ⟨some (s.client.decodeMergeRequest resp), some resp, none,
          [.build "PUT"
        ("projects/" ++ pesc project ++ "/merge_requests/" ++ toString mergeRequestIID ++ "/approvers")
        (.allowedApprovers opt) options,
           .doCall
            ⟨"PUT", "projects/" ++ pesc project ++ "/merge_requests/" ++ toString mergeRequestIID ++ "/approvers", .allowedApprovers opt, options⟩ .mergeRequest], s, opt⟩) := by
  cases hp : parseID pid with
  | error e =>
    exact Or.inl ⟨e, rfl, by simp [MergeRequestApprovalsService.ChangeAllowedApprovers, hp]⟩
  | ok project =>
    cases hn : s.client.newRequestFail "PUT"
        ("projects/" ++ pesc project ++ "/merge_requests/" ++ toString mergeRequestIID ++ "/approvers")
        (.allowedApprovers opt) options with
    | some e =>
      exact Or.inr (Or.inl ⟨project, e, rfl, hn, by
        simp [MergeRequestApprovalsService.ChangeAllowedApprovers, hp, Client.newRequest, hn]⟩)
    | none =>
      cases hd : s.client.doRun
          ⟨"PUT", "projects/" ++ pesc project ++ "/merge_requests/" ++ toString mergeRequestIID ++ "/approvers", .allowedApprovers opt, options⟩ .mergeRequest with
      | fail r e =>
        exact Or.inr (Or.inr (Or.inl ⟨project, r, e, rfl, hn, hd, by
          simp [MergeRequestApprovalsService.ChangeAllowedApprovers, hp, Client.newRequest, hn, hd]⟩))
      | ok resp =>
        exact Or.inr (Or.inr (Or.inr ⟨project, resp, rfl, hn, hd, by
          simp [MergeRequestApprovalsService.ChangeAllowedApprovers, hp, Client.newRequest, hn, hd]⟩))

/-- Exhaustive run analysis of `ChangeProjectMergeRequestApprovalConfiguration`: exactly one of the four source paths
is taken, each fully determining the outcome record. -/
theorem ChangeProjectMergeRequestApprovalConfiguration_run_cases
    (s : MergeRequestApprovalsService) (pesc : String → String) (pid : PID)
    (opt : Option ProjectMergeRequestApprovalSettings) (options : List OptionFunc) :
    (∃ e, parseID pid = .error e ∧
      s.ChangeProjectMergeRequestApprovalConfiguration pesc pid opt options = ⟨none, none, some e, [], s, opt⟩) ∨
    (∃ project e, parseID pid = .ok project ∧
      s.client.newRequestFail "POST"
        ("projects/" ++ pesc project ++ "/approvals")
        (.projectSettings opt) options = some e ∧
      s.ChangeProjectMergeRequestApprovalConfiguration pesc pid opt options =
        ⟨none, none, some e,
          [.build "POST"
        ("projects/" ++ pesc project ++ "/approvals")
        (.projectSettings opt) options], s, opt⟩) ∨
    (∃ project r e, parseID pid = .ok project ∧
      s.client.newRequestFail "POST"
        ("projects/" ++ pesc project ++ "/approvals")
        (.projectSettings opt) options = none ∧
      s.client.doRun
        ⟨"POST", "projects/" ++ pesc project ++ "/approvals", .projectSettings opt, options⟩ .approvals = .fail r e ∧
      s.ChangeProjectMergeRequestApprovalConfiguration pesc pid opt options =
        ⟨none, r, some e,
          [.build "POST"
        ("projects/" ++ pesc project ++ "/approvals")
        (.projectSettings opt) options,
           .doCall
            ⟨"POST", "projects/" ++ pesc project ++ "/approvals", .projectSettings opt, options⟩ .approvals], s, opt⟩) ∨
    (∃ project resp, parseID pid = .ok project ∧
      s.client.newRequestFail "POST"
        ("projects/" ++ pesc project ++ "/approvals")
        (.projectSettings opt) options = none ∧
      s.client.doRun
        ⟨"POST", "projects/" ++ pesc project ++ "/approvals", .projectSettings opt, options⟩ .approvals = .ok resp ∧
      s.ChangeProjectMergeRequestApprovalConfiguration pesc pid opt options =
        ⟨some (s.client.decodeApprovals resp), some resp, none,
          [.build "POST"
        ("projects/" ++ pesc project ++ "/approvals")
        (.projectSettings opt) options,
           .doCall
            ⟨"POST", "projects/" ++ pesc project ++ "/approvals", .projectSettings opt, options⟩ .approvals], s, opt⟩) := by
  cases hp : parseID pid with
  | error e =>
    exact Or.inl ⟨e, rfl, by simp [MergeRequestApprovalsService.ChangeProjectMergeRequestApprovalConfiguration, hp]⟩
  | ok project =>
    cases hn : s.client.newRequestFail "POST"
        ("projects/" ++ pesc project ++ "/approvals")
        (.projectSettings opt) options with
    | some e =>
      exact Or.inr (Or.inl ⟨project, e, rfl, hn, by
        simp [MergeRequestApprovalsService.ChangeProjectMergeRequestApprovalConfiguration, hp, Client.newRequest, hn]⟩)
    | none =>
      cases hd : s.client.doRun
          ⟨"POST", "projects/" ++ pesc project ++ "/approvals", .projectSettings opt, options⟩ .approvals with
      | fail r e =>
        exact Or.inr (Or.inr (Or.inl ⟨project, r, e, rfl, hn, hd, by
          simp [MergeRequestApprovalsService.ChangeProjectMergeRequestApprovalConfiguration, hp, Client.newRequest, hn, hd]⟩))
      | ok resp =>
        exact Or.inr (Or.inr (Or.inr ⟨project, resp, rfl, hn, hd, by
          simp [MergeRequestApprovalsService.ChangeProjectMergeRequestApprovalConfiguration, hp, Client.newRequest, hn, hd]⟩))

/-- Exhaustive run analysis of `UnapproveMergeRequest`: exactly one of the
four source paths is taken, each fully determining the outcome record; the
decode target of its single cycle is the nil target. -/
theorem UnapproveMergeRequest_run_cases
    (s : MergeRequestApprovalsService) (pesc : String → String) (pid : PID)
    (mr : Int) (options : List OptionFunc) :
    (∃ e, parseID pid = .error e ∧
      s.UnapproveMergeRequest pesc pid mr options = ⟨none, some e, [], s⟩) ∨
    (∃ project e, parseID pid = .ok project ∧
      s.client.newRequestFail "POST"
        ("projects/" ++ pesc project ++ "/merge_requests/" ++ toString mr ++ "/unapprove")
        .empty options = some e ∧
      s.UnapproveMergeRequest pesc pid mr options =
        ⟨none, some e,
          [.build "POST"
            ("projects/" ++ pesc project ++ "/merge_requests/" ++ toString mr ++ "/unapprove")
            .empty options], s⟩) ∨
    (∃ project r e, parseID pid = .ok project ∧
      s.client.newRequestFail "POST"
        ("projects/" ++ pesc project ++ "/merge_requests/" ++ toString mr ++ "/unapprove")
        .empty options = none ∧
      s.client.doRun
        ⟨"POST", "projects/" ++ pesc project ++ "/merge_requests/" ++ toString mr ++ "/unapprove",
          .empty, options⟩ .noTarget = .fail r e ∧
      s.UnapproveMergeRequest pesc pid mr options =
        ⟨r, some e,
          [.build "POST"
            ("projects/" ++ pesc project ++ "/merge_requests/" ++ toString mr ++ "/unapprove")
            .empty options,
           .doCall
            ⟨"POST",
              "projects/" ++ pesc project ++ "/merge_requests/" ++ toString mr ++ "/unapprove",
              .empty, options⟩ .noTarget], s⟩) ∨
    (∃ project resp, parseID pid = .ok project ∧
      s.client.newRequestFail "POST"
        ("projects/" ++ pesc project ++ "/merge_requests/" ++ toString mr ++ "/unapprove")
        .empty options = none ∧
      s.client.doRun
        ⟨"POST", "projects/" ++ pesc project ++ "/merge_requests/" ++ toString mr ++ "/unapprove",
          .empty, options⟩ .noTarget = .ok resp ∧
      s.UnapproveMergeRequest pesc pid mr options =
        ⟨some resp, none,
          [.build "POST"
            ("projects/" ++ pesc project ++ "/merge_requests/" ++ toString mr ++ "/unapprove")
            .empty options,
           .doCall
            ⟨"POST",
              "projects/" ++ pesc project ++ "/merge_requests/" ++ toString mr ++ "/unapprove",
              .empty, options⟩ .noTarget], s⟩) := by
  cases hp : parseID pid with
  | error e =>
    exact Or.inl ⟨e, rfl, by simp [MergeRequestApprovalsService.UnapproveMergeRequest, hp]⟩
  | ok project =>
    cases hn : s.client.newRequestFail "POST"
        ("projects/" ++ pesc project ++ "/merge_requests/" ++ toString mr ++ "/unapprove")
        .empty options with
    | some e =>
      exact Or.inr (Or.inl ⟨project, e, rfl, hn, by
        simp [MergeRequestApprovalsService.UnapproveMergeRequest, hp, Client.newRequest, hn]⟩)
    | none =>
      cases hd : s.client.doRun
          ⟨"POST", "projects/" ++ pesc project ++ "/merge_requests/" ++ toString mr ++ "/unapprove",
            .empty, options⟩ .noTarget with
      | fail r e =>
        exact Or.inr (Or.inr (Or.inl ⟨project, r, e, rfl, hn, hd, by
          simp [MergeRequestApprovalsService.UnapproveMergeRequest, hp, Client.newRequest, hn, hd]⟩))
      | ok resp =>
        exact Or.inr (Or.inr (Or.inr ⟨project, resp, rfl, hn, hd, by
          simp [MergeRequestApprovalsService.UnapproveMergeRequest, hp, Client.newRequest, hn, hd]⟩))

/-- C3: for every project identifier `pid` that `parseID` accepts and every
merge request number `mr`, `ApproveMergeRequest` formats exactly the URL path
`projects/` ++ pathEscape(parseID(pid)) ++ `/merge_requests/` ++ mr ++
`/approve`, issues it as a POST with the (optional) sha option serialized, and
on success returns the response decoded into a `MergeRequestApprovals`
struct. -/
theorem approve_posts_approve_url_and_decodes
    (s : MergeRequestApprovalsService) (pesc : String → String) (pid : PID)
    (mr : Int) (opt : Option ApproveMergeRequestOptions) (options : List OptionFunc)
    (project : String) (hp : parseID pid = .ok project) :
    (∀ req tgt, Event.doCall req tgt ∈ (s.ApproveMergeRequest pesc pid mr opt options).trace →
        req = ⟨"POST",
          "projects/" ++ pesc project ++ "/merge_requests/" ++ toString mr ++ "/approve",
          RequestBody.approve opt, options⟩ ∧ tgt = DoTarget.approvals) ∧
    ((s.ApproveMergeRequest pesc pid mr opt options).err = none →
      ∃ resp, (s.ApproveMergeRequest pesc pid mr opt options).resp = some resp ∧
        (s.ApproveMergeRequest pesc pid mr opt options).value =
          some (s.client.decodeApprovals resp)) := by
  rcases ApproveMergeRequest_run_cases s pesc pid mr opt options with
      ⟨e, hpe, hout⟩ | ⟨p, e, hpe, hn, hout⟩ | ⟨p, r, e, hpe, hn, hd, hout⟩ |
      ⟨p, resp, hpe, hn, hd, hout⟩
  · simp [hp] at hpe
  · rw [hp] at hpe; injection hpe with h; subst h
    rw [hout]
    exact ⟨fun req tgt hmem => by simp at hmem, fun hok => by simp at hok⟩
  · rw [hp] at hpe; injection hpe with h; subst h
    rw [hout]
    exact ⟨fun req tgt hmem => by simpa using hmem, fun hok => by simp at hok⟩
  · rw [hp] at hpe; injection hpe with h; subst h
    rw [hout]
    exact ⟨fun req tgt hmem => by simpa using hmem, fun _ => ⟨resp, rfl, rfl⟩⟩

theorem approve_posts_approve_url_and_decodes_witness :
    parseID (PID.ofString "7") = Except.ok "7" ∧
    ((okService.ApproveMergeRequest (fun x => x) (PID.ofString "7") 3 none []).err = none →
      ∃ resp,
        (okService.ApproveMergeRequest (fun x => x) (PID.ofString "7") 3 none []).resp =
          some resp ∧
        (okService.ApproveMergeRequest (fun x => x) (PID.ofString "7") 3 none []).value =
          some (okService.client.decodeApprovals resp)) :=
  ⟨rfl, (approve_posts_approve_url_and_decodes okService (fun x => x)
    (PID.ofString "7") 3 none [] "7" rfl).2⟩

/-- C6: for every accepted project identifier `pid`,
`ChangeProjectMergeRequestApprovalConfiguration` issues a POST to the
project-level path `projects/` ++ pathEscape(parseID(pid)) ++ `/approvals`
(no merge-request segment in the template), and on success returns the
response decoded into a `MergeRequestApprovals` struct. -/
theorem project_config_posts_project_approvals_url
    (s : MergeRequestApprovalsService) (pesc : String → String) (pid : PID)
    (opt : Option ProjectMergeRequestApprovalSettings) (options : List OptionFunc)
    (project : String) (hp : parseID pid = .ok project) :
    (∀ req tgt, Event.doCall req tgt ∈
        (s.ChangeProjectMergeRequestApprovalConfiguration pesc pid opt options).trace →
        req = ⟨"POST", "projects/" ++ pesc project ++ "/approvals",
          RequestBody.projectSettings opt, options⟩ ∧ tgt = DoTarget.approvals) ∧
    ((s.ChangeProjectMergeRequestApprovalConfiguration pesc pid opt options).err = none →
      ∃ resp,
        (s.ChangeProjectMergeRequestApprovalConfiguration pesc pid opt options).resp =
          some resp ∧
        (s.ChangeProjectMergeRequestApprovalConfiguration pesc pid opt options).value =
          some (s.client.decodeApprovals resp)) := by
  rcases ChangeProjectMergeRequestApprovalConfiguration_run_cases s pesc pid opt options with
      ⟨e, hpe, hout⟩ | ⟨p, e, hpe, hn, hout⟩ | ⟨p, r, e, hpe, hn, hd, hout⟩ |
      ⟨p, resp, hpe, hn, hd, hout⟩
  · simp [hp] at hpe
  · rw [hp] at hpe; injection hpe with h; subst h
    rw [hout]
    exact ⟨fun req tgt hmem => by simp at hmem, fun hok => by simp at hok⟩
  · rw [hp] at hpe; injection hpe with h; subst h
    rw [hout]
    exact ⟨fun req tgt hmem => by simpa using hmem, fun hok => by simp at hok⟩
  · rw [hp] at hpe; injection hpe with h; subst h
    rw [hout]
    exact ⟨fun req tgt hmem => by simpa using hmem, fun _ => ⟨resp, rfl, rfl⟩⟩

theorem project_config_posts_project_approvals_url_witness :
    parseID (PID.ofInt 11) = Except.ok "11" ∧
    ((okService.ChangeProjectMergeRequestApprovalConfiguration (fun x => x)
        (PID.ofInt 11) none []).err = none →
      ∃ resp,
        (okService.ChangeProjectMergeRequestApprovalConfiguration (fun x => x)
          (PID.ofInt 11) none []).resp = some resp ∧
        (okService.ChangeProjectMergeRequestApprovalConfiguration (fun x => x)
          (PID.ofInt 11) none []).value = some (okService.client.decodeApprovals resp)) :=
  ⟨rfl, (project_config_posts_project_approvals_url okService (fun x => x)
    (PID.ofInt 11) none [] "11" rfl).2⟩

/-- Every event `ApproveMergeRequest` performs carries the POST verb. -/
theorem ApproveMergeRequest_trace_verb
    (s : MergeRequestApprovalsService) (pesc : String → String) (pid : PID)
    (mr : Int) (opt : Option ApproveMergeRequestOptions) (options : List OptionFunc) :
    ∀ ev ∈ (s.ApproveMergeRequest pesc pid mr opt options).trace, ev.verb = "POST" := by
  intro ev hmem
  rcases ApproveMergeRequest_run_cases s pesc pid mr opt options with
      ⟨e, hpe, hout⟩ | ⟨p, e, hpe, hn, hout⟩ | ⟨p, r, e, hpe, hn, hd, hout⟩ |
      ⟨p, resp, hpe, hn, hd, hout⟩
  · rw [hout] at hmem; simp at hmem
  · rw [hout] at hmem; simp at hmem; subst hmem; rfl
  · rw [hout] at hmem; simp at hmem; rcases hmem with rfl | rfl <;> rfl
  · rw [hout] at hmem; simp at hmem; rcases hmem with rfl | rfl <;> rfl

/-- Every event `UnapproveMergeRequest` performs carries the POST verb. -/
theorem UnapproveMergeRequest_trace_verb
    (s : MergeRequestApprovalsService) (pesc : String → String) (pid : PID)
    (mr : Int) (options : List OptionFunc) :
    ∀ ev ∈ (s.UnapproveMergeRequest pesc pid mr options).trace, ev.verb = "POST" := by
  intro ev hmem
  rcases UnapproveMergeRequest_run_cases s pesc pid mr options with
      ⟨e, hpe, hout⟩ | ⟨p, e, hpe, hn, hout⟩ | ⟨p, r, e, hpe, hn, hd, hout⟩ |
      ⟨p, resp, hpe, hn, hd, hout⟩
  · rw [hout] at hmem; simp at hmem
  · rw [hout] at hmem; simp at hmem; subst hmem; rfl
  · rw [hout] at hmem; simp at hmem; rcases hmem with rfl | rfl <;> rfl
  · rw [hout] at hmem; simp at hmem; rcases hmem with rfl | rfl <;> rfl

/-- Every event `ChangeApprovalConfiguration` performs carries the POST verb. -/
theorem ChangeApprovalConfiguration_trace_verb
    (s : MergeRequestApprovalsService) (pesc : String → String) (pid : PID)
    (mergeRequestIID : Int) (opt : Option ChangeMergeRequestApprovalConfigurationOptions) (options : List OptionFunc) :
    ∀ ev ∈ (s.ChangeApprovalConfiguration pesc pid mergeRequestIID opt options).trace, ev.verb = "POST" := by
  intro ev hmem
  rcases ChangeApprovalConfiguration_run_cases s pesc pid mergeRequestIID opt options with
      ⟨e, hpe, hout⟩ | ⟨p, e, hpe, hn, hout⟩ | ⟨p, r, e, hpe, hn, hd, hout⟩ |
      ⟨p, resp, hpe, hn, hd, hout⟩
  · rw [hout] at hmem; simp at hmem
  · rw [hout] at hmem; simp at hmem; subst hmem; rfl
  · rw [hout] at hmem; simp at hmem; rcases hmem with rfl | rfl <;> rfl
  · rw [hout] at hmem; simp at hmem; rcases hmem with rfl | rfl <;> rfl

/-- Every event `ChangeAllowedApprovers` performs carries the PUT verb. -/
theorem ChangeAllowedApprovers_trace_verb
    (s : MergeRequestApprovalsService) (pesc : String → String) (pid : PID)
    (mergeRequestIID : Int) (opt : Option ChangeMergeRequestAllowedApproversOptions) (options : List OptionFunc) :
    ∀ ev ∈ (s.ChangeAllowedApprovers pesc pid mergeRequestIID opt options).trace, ev.verb = "PUT" := by
  intro ev hmem
  rcases ChangeAllowedApprovers_run_cases s pesc pid mergeRequestIID opt options with
      ⟨e, hpe, hout⟩ | ⟨p, e, hpe, hn, hout⟩ | ⟨p, r, e, hpe, hn, hd, hout⟩ |
      ⟨p, resp, hpe, hn, hd, hout⟩
  · rw [hout] at hmem; simp at hmem
  · rw [hout] at hmem; simp at hmem; subst hmem; rfl
  · rw [hout] at hmem; simp at hmem; rcases hmem with rfl | rfl <;> rfl
  · rw [hout] at hmem; simp at hmem; rcases hmem with rfl | rfl <;> rfl

/-- Every event `ChangeProjectMergeRequestApprovalConfiguration` performs carries the POST verb. -/
theorem ChangeProjectMergeRequestApprovalConfiguration_trace_verb
    (s : MergeRequestApprovalsService) (pesc : String → String) (pid : PID)
    (opt : Option ProjectMergeRequestApprovalSettings) (options : List OptionFunc) :
    ∀ ev ∈ (s.ChangeProjectMergeRequestApprovalConfiguration pesc pid opt options).trace, ev.verb = "POST" := by
  intro ev hmem
  rcases ChangeProjectMergeRequestApprovalConfiguration_run_cases s pesc pid opt options with
      ⟨e, hpe, hout⟩ | ⟨p, e, hpe, hn, hout⟩ | ⟨p, r, e, hpe, hn, hd, hout⟩ |
      ⟨p, resp, hpe, hn, hd, hout⟩
  · rw [hout] at hmem; simp at hmem
  · rw [hout] at hmem; simp at hmem; subst hmem; rfl
  · rw [hout] at hmem; simp at hmem; rcases hmem with rfl | rfl <;> rfl
  · rw [hout] at hmem; simp at hmem; rcases hmem with rfl | rfl <;> rfl

/-- C5: for every accepted project identifier `pid` and merge request IID,
`ChangeAllowedApprovers` issues a PUT request (the only PUT among the five
methods; all others use POST) to the fixed path `projects/` ++
pathEscape(parseID(pid)) ++ `/merge_requests/` ++ IID ++ `/approvers` with the
approver_ids and approver_group_ids options serialized, and on success
returns the response decoded into a `MergeRequest` struct. -/
theorem change_allowed_approvers_put_url_and_decodes
    (s : MergeRequestApprovalsService) (pesc : String → String) (pid : PID)
    (mergeRequestIID : Int) (opt : Option ChangeMergeRequestAllowedApproversOptions)
    (options : List OptionFunc) (project : String) (hp : parseID pid = .ok project) :
    (∀ req tgt, Event.doCall req tgt ∈
        (s.ChangeAllowedApprovers pesc pid mergeRequestIID opt options).trace →
        req = ⟨"PUT",
          "projects/" ++ pesc project ++ "/merge_requests/" ++
            toString mergeRequestIID ++ "/approvers",
          RequestBody.allowedApprovers opt, options⟩ ∧ tgt = DoTarget.mergeRequest) ∧
    ((s.ChangeAllowedApprovers pesc pid mergeRequestIID opt options).err = none →
      ∃ resp,
        (s.ChangeAllowedApprovers pesc pid mergeRequestIID opt options).resp = some resp ∧
        (s.ChangeAllowedApprovers pesc pid mergeRequestIID opt options).value =
          some (s.client.decodeMergeRequest resp)) ∧
    (∀ ev ∈ (s.ChangeAllowedApprovers pesc pid mergeRequestIID opt options).trace,
        ev.verb = "PUT") ∧
    (∀ (mr : Int) (oA : Option ApproveMergeRequestOptions) (os : List OptionFunc),
      ∀ ev ∈ (s.ApproveMergeRequest pesc pid mr oA os).trace, ev.verb = "POST") ∧
    (∀ (mr : Int) (os : List OptionFunc),
      ∀ ev ∈ (s.UnapproveMergeRequest pesc pid mr os).trace, ev.verb = "POST") ∧
    (∀ (mr : Int) (oC : Option ChangeMergeRequestApprovalConfigurationOptions)
        (os : List OptionFunc),
      ∀ ev ∈ (s.ChangeApprovalConfiguration pesc pid mr oC os).trace, ev.verb = "POST") ∧
    (∀ (oP : Option ProjectMergeRequestApprovalSettings) (os : List OptionFunc),
      ∀ ev ∈ (s.ChangeProjectMergeRequestApprovalConfiguration pesc pid oP os).trace,
        ev.verb = "POST") := by
  refine ⟨?_, ?_, ChangeAllowedApprovers_trace_verb s pesc pid mergeRequestIID opt options,
    fun mr oA os => ApproveMergeRequest_trace_verb s pesc pid mr oA os,
    fun mr os => UnapproveMergeRequest_trace_verb s pesc pid mr os,
    fun mr oC os => ChangeApprovalConfiguration_trace_verb s pesc pid mr oC os,
    fun oP os => ChangeProjectMergeRequestApprovalConfiguration_trace_verb s pesc pid oP os⟩ <;>
  rcases ChangeAllowedApprovers_run_cases s pesc pid mergeRequestIID opt options with
      ⟨e, hpe, hout⟩ | ⟨p, e, hpe, hn, hout⟩ | ⟨p, r, e, hpe, hn, hd, hout⟩ |
      ⟨p, resp, hpe, hn, hd, hout⟩
  · simp [hp] at hpe
  · rw [hp] at hpe; injection hpe with h; subst h
    rw [hout]; exact fun req tgt hmem => by simp at hmem
  · rw [hp] at hpe; injection hpe with h; subst h
    rw [hout]; exact fun req tgt hmem => by simpa using hmem
  · rw [hp] at hpe; injection hpe with h; subst h
    rw [hout]; exact fun req tgt hmem => by simpa using hmem
  · simp [hp] at hpe
  · rw [hp] at hpe; injection hpe with h; subst h
    rw [hout]; exact fun hok => by simp at hok
  · rw [hp] at hpe; injection hpe with h; subst h
    rw [hout]; exact fun hok => by simp at hok
  · rw [hp] at hpe; injection hpe with h; subst h
    rw [hout]; exact fun _ => ⟨resp, rfl, rfl⟩

theorem change_allowed_approvers_put_url_and_decodes_witness :
    parseID (PID.ofString "grp/prj") = Except.ok "grp/prj" ∧
    ((okService.ChangeAllowedApprovers (fun x => x) (PID.ofString "grp/prj") 5
        (some ⟨[1, 2], [3]⟩) []).err = none →
      ∃ resp,
        (okService.ChangeAllowedApprovers (fun x => x) (PID.ofString "grp/prj") 5
          (some ⟨[1, 2], [3]⟩) []).resp = some resp ∧
        (okService.ChangeAllowedApprovers (fun x => x) (PID.ofString "grp/prj") 5
          (some ⟨[1, 2], [3]⟩) []).value = some (okService.client.decodeMergeRequest resp)) :=
  ⟨rfl, (change_allowed_approvers_put_url_and_decodes okService (fun x => x)
    (PID.ofString "grp/prj") 5 (some ⟨[1, 2], [3]⟩) [] "grp/prj" rfl).2.1⟩

/-- C1 counterexample: at a concrete input, the single request/response cycle
performed by `UnapproveMergeRequest` carries the nil decode target
(`DoTarget.noTarget`), not a non-nil result struct, and the method returns no
decoded struct — refuting the claim that every one of the five methods passes
a non-nil target to the response-decoding step. -/
theorem unapprove_passes_nil_decode_target :
    (okService.UnapproveMergeRequest (fun x => x) (PID.ofString "7") 3 []).trace =
      [Event.build "POST" "projects/7/merge_requests/3/unapprove" RequestBody.empty [],
       Event.doCall ⟨"POST", "projects/7/merge_requests/3/unapprove", RequestBody.empty, []⟩
         DoTarget.noTarget] := by
  decide

/-- C1 (amended): each of the four struct-returning methods
(`ApproveMergeRequest`, `ChangeApprovalConfiguration`, `ChangeAllowedApprovers`,
`ChangeProjectMergeRequestApprovalConfiguration`) passes a non-nil typed decode
target to the client's response-decoding step and, on success, returns the
decoded struct to the caller; `UnapproveMergeRequest` passes the nil target
and returns no decoded struct. -/
theorem struct_methods_pass_typed_decode_target
    (s : MergeRequestApprovalsService) (pesc : String → String) (pid : PID) (mr : Int)
    (oA : Option ApproveMergeRequestOptions)
    (oC : Option ChangeMergeRequestApprovalConfigurationOptions)
    (oW : Option ChangeMergeRequestAllowedApproversOptions)
    (oP : Option ProjectMergeRequestApprovalSettings)
    (options : List OptionFunc) :
    (∀ req tgt, Event.doCall req tgt ∈ (s.ApproveMergeRequest pesc pid mr oA options).trace →
        tgt = DoTarget.approvals) ∧
    ((s.ApproveMergeRequest pesc pid mr oA options).err = none →
      ∃ resp, (s.ApproveMergeRequest pesc pid mr oA options).value =
        some (s.client.decodeApprovals resp)) ∧
    (∀ req tgt, Event.doCall req tgt ∈
        (s.ChangeApprovalConfiguration pesc pid mr oC options).trace →
        tgt = DoTarget.mergeRequest) ∧
    ((s.ChangeApprovalConfiguration pesc pid mr oC options).err = none →
      ∃ resp, (s.ChangeApprovalConfiguration pesc pid mr oC options).value =
        some (s.client.decodeMergeRequest resp)) ∧
    (∀ req tgt, Event.doCall req tgt ∈
        (s.ChangeAllowedApprovers pesc pid mr oW options).trace →
        tgt = DoTarget.mergeRequest) ∧
    ((s.ChangeAllowedApprovers pesc pid mr oW options).err = none →
      ∃ resp, (s.ChangeAllowedApprovers pesc pid mr oW options).value =
        some (s.client.decodeMergeRequest resp)) ∧
    (∀ req tgt, Event.doCall req tgt ∈
        (s.ChangeProjectMergeRequestApprovalConfiguration pesc pid oP options).trace →
        tgt = DoTarget.approvals) ∧
    ((s.ChangeProjectMergeRequestApprovalConfiguration pesc pid oP options).err = none →
      ∃ resp, (s.ChangeProjectMergeRequestApprovalConfiguration pesc pid oP options).value =
        some (s.client.decodeApprovals resp)) ∧
    (∀ req tgt, Event.doCall req tgt ∈ (s.UnapproveMergeRequest pesc pid mr options).trace →
        tgt = DoTarget.noTarget) := by
  refine ⟨?_, ?_, ?_, ?_, ?_, ?_, ?_, ?_, ?_⟩
  · intro req tgt hmem
    rcases ApproveMergeRequest_run_cases s pesc pid mr oA options with
        ⟨e, hpe, hout⟩ | ⟨p, e, hpe, hn, hout⟩ | ⟨p, r, e, hpe, hn, hd, hout⟩ |
        ⟨p, resp, hpe, hn, hd, hout⟩ <;> rw [hout] at hmem <;> simp at hmem <;> exact hmem.2
  · intro hok
    rcases ApproveMergeRequest_run_cases s pesc pid mr oA options with
        ⟨e, hpe, hout⟩ | ⟨p, e, hpe, hn, hout⟩ | ⟨p, r, e, hpe, hn, hd, hout⟩ |
        ⟨p, resp, hpe, hn, hd, hout⟩ <;> rw [hout] at hok <;> simp at hok
    exact ⟨resp, by rw [hout]⟩
  · intro req tgt hmem
    rcases ChangeApprovalConfiguration_run_cases s pesc pid mr oC options with
        ⟨e, hpe, hout⟩ | ⟨p, e, hpe, hn, hout⟩ | ⟨p, r, e, hpe, hn, hd, hout⟩ |
        ⟨p, resp, hpe, hn, hd, hout⟩ <;> rw [hout] at hmem <;> simp at hmem <;> exact hmem.2
  · intro hok
    rcases ChangeApprovalConfiguration_run_cases s pesc pid mr oC options with
        ⟨e, hpe, hout⟩ | ⟨p, e, hpe, hn, hout⟩ | ⟨p, r, e, hpe, hn, hd, hout⟩ |
        ⟨p, resp, hpe, hn, hd, hout⟩ <;> rw [hout] at hok <;> simp at hok
    exact ⟨resp, by rw [hout]⟩
  · intro req tgt hmem
    rcases ChangeAllowedApprovers_run_cases s pesc pid mr oW options with
        ⟨e, hpe, hout⟩ | ⟨p, e, hpe, hn, hout⟩ | ⟨p, r, e, hpe, hn, hd, hout⟩ |
        ⟨p, resp, hpe, hn, hd, hout⟩ <;> rw [hout] at hmem <;> simp at hmem <;> exact hmem.2
  · intro hok
    rcases ChangeAllowedApprovers_run_cases s pesc pid mr oW options with
        ⟨e, hpe, hout⟩ | ⟨p, e, hpe, hn, hout⟩ | ⟨p, r, e, hpe, hn, hd, hout⟩ |
        ⟨p, resp, hpe, hn, hd, hout⟩ <;> rw [hout] at hok <;> simp at hok
    exact ⟨resp, by rw [hout]⟩
  · intro req tgt hmem
    rcases ChangeProjectMergeRequestApprovalConfiguration_run_cases s pesc pid oP options with
        ⟨e, hpe, hout⟩ | ⟨p, e, hpe, hn, hout⟩ | ⟨p, r, e, hpe, hn, hd, hout⟩ |
        ⟨p, resp, hpe, hn, hd, hout⟩ <;> rw [hout] at hmem <;> simp at hmem <;> exact hmem.2
  · intro hok
    rcases ChangeProjectMergeRequestApprovalConfiguration_run_cases s pesc pid oP options with
        ⟨e, hpe, hout⟩ | ⟨p, e, hpe, hn, hout⟩ | ⟨p, r, e, hpe, hn, hd, hout⟩ |
        ⟨p, resp, hpe, hn, hd, hout⟩ <;> rw [hout] at hok <;> simp at hok
    exact ⟨resp, by rw [hout]⟩
  · intro req tgt hmem
    rcases UnapproveMergeRequest_run_cases s pesc pid mr options with
        ⟨e, hpe, hout⟩ | ⟨p, e, hpe, hn, hout⟩ | ⟨p, r, e, hpe, hn, hd, hout⟩ |
        ⟨p, resp, hpe, hn, hd, hout⟩ <;> rw [hout] at hmem <;> simp at hmem <;> exact hmem.2

theorem struct_methods_pass_typed_decode_target_witness :
    (okService.ApproveMergeRequest (fun x => x) (PID.ofInt 1) 2 none []).err = none ∧
    (∃ resp, (okService.ApproveMergeRequest (fun x => x) (PID.ofInt 1) 2 none []).value =
      some (okService.client.decodeApprovals resp)) :=
  ⟨by decide, (struct_methods_pass_typed_decode_target okService (fun x => x) (PID.ofInt 1) 2
    none none none none []).2.1 (by decide)⟩

/-- C2: every error value any of the five methods returns is surfaced
unchanged from the delegated layers — the project-identifier parsing step of
request construction (`parseID`), the client's request construction
(`NewRequest`), or the client's request/response cycle (`Do`); no method
manufactures an error of its own. -/
theorem errors_originate_in_client_layers
    (s : MergeRequestApprovalsService) (pesc : String → String) (pid : PID) (mr : Int)
    (oA : Option ApproveMergeRequestOptions)
    (oC : Option ChangeMergeRequestApprovalConfigurationOptions)
    (oW : Option ChangeMergeRequestAllowedApproversOptions)
    (oP : Option ProjectMergeRequestApprovalSettings)
    (options : List OptionFunc) :
    (∀ e, (s.ApproveMergeRequest pesc pid mr oA options).err = some e →
      parseID pid = .error e ∨
      (∃ m u b os, s.client.newRequestFail m u b os = some e) ∨
      (∃ req t r, s.client.doRun req t = .fail r e)) ∧
    (∀ e, (s.UnapproveMergeRequest pesc pid mr options).err = some e →
      parseID pid = .error e ∨
      (∃ m u b os, s.client.newRequestFail m u b os = some e) ∨
      (∃ req t r, s.client.doRun req t = .fail r e)) ∧
    (∀ e, (s.ChangeApprovalConfiguration pesc pid mr oC options).err = some e →
      parseID pid = .error e ∨
      (∃ m u b os, s.client.newRequestFail m u b os = some e) ∨
      (∃ req t r, s.client.doRun req t = .fail r e)) ∧
    (∀ e, (s.ChangeAllowedApprovers pesc pid mr oW options).err = some e →
      parseID pid = .error e ∨
      (∃ m u b os, s.client.newRequestFail m u b os = some e) ∨
      (∃ req t r, s.client.doRun req t = .fail r e)) ∧
    (∀ e, (s.ChangeProjectMergeRequestApprovalConfiguration pesc pid oP options).err = some e →
      parseID pid = .error e ∨
      (∃ m u b os, s.client.newRequestFail m u b os = some e) ∨
      (∃ req t r, s.client.doRun req t = .fail r e)) := by
  refine ⟨?_, ?_, ?_, ?_, ?_⟩
  · intro e he
    rcases ApproveMergeRequest_run_cases s pesc pid mr oA options with
        ⟨e2, hpe, hout⟩ | ⟨p, e2, hpe, hn, hout⟩ | ⟨p, r, e2, hpe, hn, hd, hout⟩ |
        ⟨p, resp, hpe, hn, hd, hout⟩
    · rw [hout] at he; simp at he; subst he; exact Or.inl hpe
    · rw [hout] at he; simp at he; subst he; exact Or.inr (Or.inl ⟨_, _, _, _, hn⟩)
    · rw [hout] at he; simp at he; subst he; exact Or.inr (Or.inr ⟨_, _, _, hd⟩)
    · rw [hout] at he; simp at he
  · intro e he
    rcases UnapproveMergeRequest_run_cases s pesc pid mr options with
        ⟨e2, hpe, hout⟩ | ⟨p, e2, hpe, hn, hout⟩ | ⟨p, r, e2, hpe, hn, hd, hout⟩ |
        ⟨p, resp, hpe, hn, hd, hout⟩
    · rw [hout] at he; simp at he; subst he; exact Or.inl hpe
    · rw [hout] at he; simp at he; subst he; exact Or.inr (Or.inl ⟨_, _, _, _, hn⟩)
    · rw [hout] at he; simp at he; subst he; exact Or.inr (Or.inr ⟨_, _, _, hd⟩)
    · rw [hout] at he; simp at he
  · intro e he
    rcases ChangeApprovalConfiguration_run_cases s pesc pid mr oC options with
        ⟨e2, hpe, hout⟩ | ⟨p, e2, hpe, hn, hout⟩ | ⟨p, r, e2, hpe, hn, hd, hout⟩ |
        ⟨p, resp, hpe, hn, hd, hout⟩
    · rw [hout] at he; simp at he; subst he; exact Or.inl hpe
    · rw [hout] at he; simp at he; subst he; exact Or.inr (Or.inl ⟨_, _, _, _, hn⟩)
    · rw [hout] at he; simp at he; subst he; exact Or.inr (Or.inr ⟨_, _, _, hd⟩)
    · rw [hout] at he; simp at he
  · intro e he
    rcases ChangeAllowedApprovers_run_cases s pesc pid mr oW options with
        ⟨e2, hpe, hout⟩ | ⟨p, e2, hpe, hn, hout⟩ | ⟨p, r, e2, hpe, hn, hd, hout⟩ |
        ⟨p, resp, hpe, hn, hd, hout⟩
    · rw [hout] at he; simp at he; subst he; exact Or.inl hpe
    · rw [hout] at he; simp at he; subst he; exact Or.inr (Or.inl ⟨_, _, _, _, hn⟩)
    · rw [hout] at he; simp at he; subst he; exact Or.inr (Or.inr ⟨_, _, _, hd⟩)
    · rw [hout] at he; simp at he
  · intro e he
    rcases ChangeProjectMergeRequestApprovalConfiguration_run_cases s pesc pid oP options with
        ⟨e2, hpe, hout⟩ | ⟨p, e2, hpe, hn, hout⟩ | ⟨p, r, e2, hpe, hn, hd, hout⟩ |
        ⟨p, resp, hpe, hn, hd, hout⟩
    · rw [hout] at he; simp at he; subst he; exact Or.inl hpe
    · rw [hout] at he; simp at he; subst he; exact Or.inr (Or.inl ⟨_, _, _, _, hn⟩)
    · rw [hout] at he; simp at he; subst he; exact Or.inr (Or.inr ⟨_, _, _, hd⟩)
    · rw [hout] at he; simp at he

theorem errors_originate_in_client_layers_witness :
    (okService.ApproveMergeRequest (fun x => x) (PID.other "true") 2 none []).err =
      some ⟨"invalid ID type true, the ID must be an int or a string"⟩ ∧
    (parseID (PID.other "true") =
        .error ⟨"invalid ID type true, the ID must be an int or a string"⟩ ∨
      (∃ m u b os, okService.client.newRequestFail m u b os =
        some ⟨"invalid ID type true, the ID must be an int or a string"⟩) ∨
      (∃ req t r, okService.client.doRun req t =
        .fail r ⟨"invalid ID type true, the ID must be an int or a string"⟩)) :=
  ⟨by decide, (errors_originate_in_client_layers okService (fun x => x) (PID.other "true") 2
    none none none none []).1 ⟨"invalid ID type true, the ID must be an int or a string"⟩
    (by decide)⟩

/-- C4: for every method, whenever the shared client's Do step returns an
error e, the method returns exactly that same error value e to its caller,
unchanged and unwrapped, and returns no decoded result (the result pointer of
the struct-returning methods is nil). -/
theorem do_error_returned_unchanged
    (s : MergeRequestApprovalsService) (pesc : String → String) (pid : PID)
    (project : String) (hp : parseID pid = .ok project) :
    (∀ (mr : Int) (opt : Option ApproveMergeRequestOptions) (options : List OptionFunc) (r : Option Response) (e : GoError),
      s.client.newRequestFail "POST"
        ("projects/" ++ pesc project ++ "/merge_requests/" ++ toString mr ++ "/approve") (RequestBody.approve opt) options = none →
      s.client.doRun ⟨"POST", "projects/" ++ pesc project ++ "/merge_requests/" ++ toString mr ++ "/approve", RequestBody.approve opt, options⟩ DoTarget.approvals = .fail r e →
      (s.ApproveMergeRequest pesc pid mr opt options).err = some e ∧ (s.ApproveMergeRequest pesc pid mr opt options).value = none) ∧
    (∀ (mr : Int) (options : List OptionFunc) (r : Option Response) (e : GoError),
      s.client.newRequestFail "POST"
        ("projects/" ++ pesc project ++ "/merge_requests/" ++ toString mr ++ "/unapprove") (RequestBody.empty) options = none →
      s.client.doRun ⟨"POST", "projects/" ++ pesc project ++ "/merge_requests/" ++ toString mr ++ "/unapprove", RequestBody.empty, options⟩ DoTarget.noTarget = .fail r e →
      (s.UnapproveMergeRequest pesc pid mr options).err = some e ∧ (s.UnapproveMergeRequest pesc pid mr options).resp = r) ∧
    (∀ (mr : Int) (opt : Option ChangeMergeRequestApprovalConfigurationOptions) (options : List OptionFunc) (r : Option Response) (e : GoError),
      s.client.newRequestFail "POST"
        ("projects/" ++ pesc project ++ "/merge_requests/" ++ toString mr ++ "/approvals") (RequestBody.changeConfig opt) options = none →
      s.client.doRun ⟨"POST", "projects/" ++ pesc project ++ "/merge_requests/" ++ toString mr ++ "/approvals", RequestBody.changeConfig opt, options⟩ DoTarget.mergeRequest = .fail r e →
      (s.ChangeApprovalConfiguration pesc pid mr opt options).err = some e ∧ (s.ChangeApprovalConfiguration pesc pid mr opt options).value = none) ∧
    (∀ (mr : Int) (opt : Option ChangeMergeRequestAllowedApproversOptions) (options : List OptionFunc) (r : Option Response) (e : GoError),
      s.client.newRequestFail "PUT"
        ("projects/" ++ pesc project ++ "/merge_requests/" ++ toString mr ++ "/approvers") (RequestBody.allowedApprovers opt) options = none →
      s.client.doRun ⟨"PUT", "projects/" ++ pesc project ++ "/merge_requests/" ++ toString mr ++ "/approvers", RequestBody.allowedApprovers opt, options⟩ DoTarget.mergeRequest = .fail r e →
      (s.ChangeAllowedApprovers pesc pid mr opt options).err = some e ∧ (s.ChangeAllowedApprovers pesc pid mr opt options).value = none) ∧
    (∀ (opt : Option ProjectMergeRequestApprovalSettings) (options : List OptionFunc) (r : Option Response) (e : GoError),
      s.client.newRequestFail "POST"
        ("projects/" ++ pesc project ++ "/approvals") (RequestBody.projectSettings opt) options = none →
      s.client.doRun ⟨"POST", "projects/" ++ pesc project ++ "/approvals", RequestBody.projectSettings opt, options⟩ DoTarget.approvals = .fail r e →
      (s.ChangeProjectMergeRequestApprovalConfiguration pesc pid opt options).err = some e ∧ (s.ChangeProjectMergeRequestApprovalConfiguration pesc pid opt options).value = none) := by
  refine ⟨?_, ?_, ?_, ?_, ?_⟩
  · intro mr opt options r e hn hd
    rcases ApproveMergeRequest_run_cases s pesc pid mr opt options with
        ⟨e2, hpe, hout⟩ | ⟨p, e2, hpe, hn2, hout⟩ | ⟨p, r2, e2, hpe, hn2, hd2, hout⟩ |
        ⟨p, resp, hpe, hn2, hd2, hout⟩
    · simp [hp] at hpe
    · rw [hp] at hpe; injection hpe with h; subst h; simp [hn] at hn2
    · rw [hp] at hpe; injection hpe with h; subst h
      rw [hd] at hd2; injection hd2 with h1 h2; subst h1; subst h2
      rw [hout]; exact ⟨rfl, rfl⟩
    · rw [hp] at hpe; injection hpe with h; subst h; rw [hd] at hd2; simp at hd2
  · intro mr options r e hn hd
    rcases UnapproveMergeRequest_run_cases s pesc pid mr options with
        ⟨e2, hpe, hout⟩ | ⟨p, e2, hpe, hn2, hout⟩ | ⟨p, r2, e2, hpe, hn2, hd2, hout⟩ |
        ⟨p, resp, hpe, hn2, hd2, hout⟩
    · simp [hp] at hpe
    · rw [hp] at hpe; injection hpe with h; subst h; simp [hn] at hn2
    · rw [hp] at hpe; injection hpe with h; subst h
      rw [hd] at hd2; injection hd2 with h1 h2; subst h1; subst h2
      rw [hout]; exact ⟨rfl, rfl⟩
    · rw [hp] at hpe; injection hpe with h; subst h; rw [hd] at hd2; simp at hd2
  · intro mr opt options r e hn hd
    rcases ChangeApprovalConfiguration_run_cases s pesc pid mr opt options with
        ⟨e2, hpe, hout⟩ | ⟨p, e2, hpe, hn2, hout⟩ | ⟨p, r2, e2, hpe, hn2, hd2, hout⟩ |
        ⟨p, resp, hpe, hn2, hd2, hout⟩
    · simp [hp] at hpe
    · rw [hp] at hpe; injection hpe with h; subst h; simp [hn] at hn2
    · rw [hp] at hpe; injection hpe with h; subst h
      rw [hd] at hd2; injection hd2 with h1 h2; subst h1; subst h2
      rw [hout]; exact ⟨rfl, rfl⟩
    · rw [hp] at hpe; injection hpe with h; subst h; rw [hd] at hd2; simp at hd2
  · intro mr opt options r e hn hd
    rcases ChangeAllowedApprovers_run_cases s pesc pid mr opt options with
        ⟨e2, hpe, hout⟩ | ⟨p, e2, hpe, hn2, hout⟩ | ⟨p, r2, e2, hpe, hn2, hd2, hout⟩ |
        ⟨p, resp, hpe, hn2, hd2, hout⟩
    · simp [hp] at hpe
    · rw [hp] at hpe; injection hpe with h; subst h; simp [hn] at hn2
    · rw [hp] at hpe; injection hpe with h; subst h
      rw [hd] at hd2; injection hd2 with h1 h2; subst h1; subst h2
      rw [hout]; exact ⟨rfl, rfl⟩
    · rw [hp] at hpe; injection hpe with h; subst h; rw [hd] at hd2; simp at hd2
  · intro opt options r e hn hd
    rcases ChangeProjectMergeRequestApprovalConfiguration_run_cases s pesc pid opt options with
        ⟨e2, hpe, hout⟩ | ⟨p, e2, hpe, hn2, hout⟩ | ⟨p, r2, e2, hpe, hn2, hd2, hout⟩ |
        ⟨p, resp, hpe, hn2, hd2, hout⟩
    · simp [hp] at hpe
    · rw [hp] at hpe; injection hpe with h; subst h; simp [hn] at hn2
    · rw [hp] at hpe; injection hpe with h; subst h
      rw [hd] at hd2; injection hd2 with h1 h2; subst h1; subst h2
      rw [hout]; exact ⟨rfl, rfl⟩
    · rw [hp] at hpe; injection hpe with h; subst h; rw [hd] at hd2; simp at hd2

theorem do_error_returned_unchanged_witness :
    failService.client.doRun
      ⟨"POST", "projects/1/merge_requests/2/approve", RequestBody.approve none, []⟩
      DoTarget.approvals = DoResult.fail (some ⟨502, "bad gateway"⟩) ⟨"transport failure"⟩ ∧
    ((failService.ApproveMergeRequest (fun x => x) (PID.ofInt 1) 2 none []).err =
        some ⟨"transport failure"⟩ ∧
      (failService.ApproveMergeRequest (fun x => x) (PID.ofInt 1) 2 none []).value = none) :=
  ⟨by decide, (do_error_returned_unchanged failService (fun x => x) (PID.ofInt 1) "1" rfl).1
    2 none [] (some ⟨502, "bad gateway"⟩) ⟨"transport failure"⟩ rfl (by decide)⟩

/-- C10: for every struct-returning method, when the client's Do step fails
the method still returns whatever Response value Do produced (which may be
non-nil) alongside the error, while the decoded struct pointer returned is
nil — the caller can receive a Response even on error. -/
theorem response_returned_on_do_error
    (s : MergeRequestApprovalsService) (pesc : String → String) (pid : PID)
    (project : String) (hp : parseID pid = .ok project) :
    (∀ (mr : Int) (opt : Option ApproveMergeRequestOptions) (options : List OptionFunc) (r : Option Response) (e : GoError),
      s.client.newRequestFail "POST"
        ("projects/" ++ pesc project ++ "/merge_requests/" ++ toString mr ++ "/approve") (RequestBody.approve opt) options = none →
      s.client.doRun ⟨"POST", "projects/" ++ pesc project ++ "/merge_requests/" ++ toString mr ++ "/approve", RequestBody.approve opt, options⟩ DoTarget.approvals = .fail r e →
      (s.ApproveMergeRequest pesc pid mr opt options).resp = r ∧ (s.ApproveMergeRequest pesc pid mr opt options).value = none ∧ (s.ApproveMergeRequest pesc pid mr opt options).err = some e) ∧
    (∀ (mr : Int) (opt : Option ChangeMergeRequestApprovalConfigurationOptions) (options : List OptionFunc) (r : Option Response) (e : GoError),
      s.client.newRequestFail "POST"
        ("projects/" ++ pesc project ++ "/merge_requests/" ++ toString mr ++ "/approvals") (RequestBody.changeConfig opt) options = none →
      s.client.doRun ⟨"POST", "projects/" ++ pesc project ++ "/merge_requests/" ++ toString mr ++ "/approvals", RequestBody.changeConfig opt, options⟩ DoTarget.mergeRequest = .fail r e →
      (s.ChangeApprovalConfiguration pesc pid mr opt options).resp = r ∧ (s.ChangeApprovalConfiguration pesc pid mr opt options).value = none ∧ (s.ChangeApprovalConfiguration pesc pid mr opt options).err = some e) ∧
    (∀ (mr : Int) (opt : Option ChangeMergeRequestAllowedApproversOptions) (options : List OptionFunc) (r : Option Response) (e : GoError),
      s.client.newRequestFail "PUT"
        ("projects/" ++ pesc project ++ "/merge_requests/" ++ toString mr ++ "/approvers") (RequestBody.allowedApprovers opt) options = none →
      s.client.doRun ⟨"PUT", "projects/" ++ pesc project ++ "/merge_requests/" ++ toString mr ++ "/approvers", RequestBody.allowedApprovers opt, options⟩ DoTarget.mergeRequest = .fail r e →
      (s.ChangeAllowedApprovers pesc pid mr opt options).resp = r ∧ (s.ChangeAllowedApprovers pesc pid mr opt options).value = none ∧ (s.ChangeAllowedApprovers pesc pid mr opt options).err = some e) ∧
    (∀ (opt : Option ProjectMergeRequestApprovalSettings) (options : List OptionFunc) (r : Option Response) (e : GoError),
      s.client.newRequestFail "POST"
        ("projects/" ++ pesc project ++ "/approvals") (RequestBody.projectSettings opt) options = none →
      s.client.doRun ⟨"POST", "projects/" ++ pesc project ++ "/approvals", RequestBody.projectSettings opt, options⟩ DoTarget.approvals = .fail r e →
      (s.ChangeProjectMergeRequestApprovalConfiguration pesc pid opt options).resp = r ∧ (s.ChangeProjectMergeRequestApprovalConfiguration pesc pid opt options).value = none ∧ (s.ChangeProjectMergeRequestApprovalConfiguration pesc pid opt options).err = some e) := by
  refine ⟨?_, ?_, ?_, ?_⟩
  · intro mr opt options r e hn hd
    rcases ApproveMergeRequest_run_cases s pesc pid mr opt options with
        ⟨e2, hpe, hout⟩ | ⟨p, e2, hpe, hn2, hout⟩ | ⟨p, r2, e2, hpe, hn2, hd2, hout⟩ |
        ⟨p, resp, hpe, hn2, hd2, hout⟩
    · simp [hp] at hpe
    · rw [hp] at hpe; injection hpe with h; subst h; simp [hn] at hn2
    · rw [hp] at hpe; injection hpe with h; subst h
      rw [hd] at hd2; injection hd2 with h1 h2; subst h1; subst h2
      rw [hout]; exact ⟨rfl, rfl, rfl⟩
    · rw [hp] at hpe; injection hpe with h; subst h; rw [hd] at hd2; simp at hd2
  · intro mr opt options r e hn hd
    rcases ChangeApprovalConfiguration_run_cases s pesc pid mr opt options with
        ⟨e2, hpe, hout⟩ | ⟨p, e2, hpe, hn2, hout⟩ | ⟨p, r2, e2, hpe, hn2, hd2, hout⟩ |
        ⟨p, resp, hpe, hn2, hd2, hout⟩
    · simp [hp] at hpe
    · rw [hp] at hpe; injection hpe with h; subst h; simp [hn] at hn2
    · rw [hp] at hpe; injection hpe with h; subst h
      rw [hd] at hd2; injection hd2 with h1 h2; subst h1; subst h2
      rw [hout]; exact ⟨rfl, rfl, rfl⟩
    · rw [hp] at hpe; injection hpe with h; subst h; rw [hd] at hd2; simp at hd2
  · intro mr opt options r e hn hd
    rcases ChangeAllowedApprovers_run_cases s pesc pid mr opt options with
        ⟨e2, hpe, hout⟩ | ⟨p, e2, hpe, hn2, hout⟩ | ⟨p, r2, e2, hpe, hn2, hd2, hout⟩ |
        ⟨p, resp, hpe, hn2, hd2, hout⟩
    · simp [hp] at hpe
    · rw [hp] at hpe; injection hpe with h; subst h; simp [hn] at hn2
    · rw [hp] at hpe; injection hpe with h; subst h
      rw [hd] at hd2; injection hd2 with h1 h2; subst h1; subst h2
      rw [hout]; exact ⟨rfl, rfl, rfl⟩
    · rw [hp] at hpe; injection hpe with h; subst h; rw [hd] at hd2; simp at hd2
  · intro opt options r e hn hd
    rcases ChangeProjectMergeRequestApprovalConfiguration_run_cases s pesc pid opt options with
        ⟨e2, hpe, hout⟩ | ⟨p, e2, hpe, hn2, hout⟩ | ⟨p, r2, e2, hpe, hn2, hd2, hout⟩ |
        ⟨p, resp, hpe, hn2, hd2, hout⟩
    · simp [hp] at hpe
    · rw [hp] at hpe; injection hpe with h; subst h; simp [hn] at hn2
    · rw [hp] at hpe; injection hpe with h; subst h
      rw [hd] at hd2; injection hd2 with h1 h2; subst h1; subst h2
      rw [hout]; exact ⟨rfl, rfl, rfl⟩
    · rw [hp] at hpe; injection hpe with h; subst h; rw [hd] at hd2; simp at hd2

theorem response_returned_on_do_error_witness :
    failService.client.doRun
      ⟨"POST", "projects/9/approvals", RequestBody.projectSettings none, []⟩
      DoTarget.approvals = DoResult.fail (some ⟨502, "bad gateway"⟩) ⟨"transport failure"⟩ ∧
    ((failService.ChangeProjectMergeRequestApprovalConfiguration (fun x => x)
        (PID.ofInt 9) none []).resp = some ⟨502, "bad gateway"⟩ ∧
      (failService.ChangeProjectMergeRequestApprovalConfiguration (fun x => x)
        (PID.ofInt 9) none []).value = none ∧
      (failService.ChangeProjectMergeRequestApprovalConfiguration (fun x => x)
        (PID.ofInt 9) none []).err = some ⟨"transport failure"⟩) :=
  ⟨by decide, (response_returned_on_do_error failService (fun x => x) (PID.ofInt 9) "9" rfl).2.2.2
    none [] (some ⟨502, "bad gateway"⟩) ⟨"transport failure"⟩ rfl (by decide)⟩

/-- C7: every method performs at most one request/response cycle per
invocation, performs zero such cycles when parsing the project identifier or
building the request fails, and never retries a failed request. -/
theorem at_most_one_request_cycle
    (s : MergeRequestApprovalsService) (pesc : String → String) (pid : PID) (mr : Int)
    (oA : Option ApproveMergeRequestOptions)
    (oC : Option ChangeMergeRequestApprovalConfigurationOptions)
    (oW : Option ChangeMergeRequestAllowedApproversOptions)
    (oP : Option ProjectMergeRequestApprovalSettings)
    (options : List OptionFunc) :
    doCount (s.ApproveMergeRequest pesc pid mr oA options).trace ≤ 1 ∧
    doCount (s.UnapproveMergeRequest pesc pid mr options).trace ≤ 1 ∧
    doCount (s.ChangeApprovalConfiguration pesc pid mr oC options).trace ≤ 1 ∧
    doCount (s.ChangeAllowedApprovers pesc pid mr oW options).trace ≤ 1 ∧
    doCount (s.ChangeProjectMergeRequestApprovalConfiguration pesc pid oP options).trace ≤ 1 ∧
    (∀ e, parseID pid = .error e → doCount (s.ApproveMergeRequest pesc pid mr oA options).trace = 0) ∧
    (∀ e, parseID pid = .error e → doCount (s.UnapproveMergeRequest pesc pid mr options).trace = 0) ∧
    (∀ e, parseID pid = .error e → doCount (s.ChangeApprovalConfiguration pesc pid mr oC options).trace = 0) ∧
    (∀ e, parseID pid = .error e → doCount (s.ChangeAllowedApprovers pesc pid mr oW options).trace = 0) ∧
    (∀ e, parseID pid = .error e → doCount (s.ChangeProjectMergeRequestApprovalConfiguration pesc pid oP options).trace = 0) ∧
    (∀ project e, parseID pid = .ok project →
      s.client.newRequestFail "POST"
        ("projects/" ++ pesc project ++ "/merge_requests/" ++ toString mr ++ "/approve") (RequestBody.approve oA) options = some e →
      doCount (s.ApproveMergeRequest pesc pid mr oA options).trace = 0) ∧
    (∀ project e, parseID pid = .ok project →
      s.client.newRequestFail "POST"
        ("projects/" ++ pesc project ++ "/merge_requests/" ++ toString mr ++ "/unapprove") (RequestBody.empty) options = some e →
      doCount (s.UnapproveMergeRequest pesc pid mr options).trace = 0) ∧
    (∀ project e, parseID pid = .ok project →
      s.client.newRequestFail "POST"
        ("projects/" ++ pesc project ++ "/merge_requests/" ++ toString mr ++ "/approvals") (RequestBody.changeConfig oC) options = some e →
      doCount (s.ChangeApprovalConfiguration pesc pid mr oC options).trace = 0) ∧
    (∀ project e, parseID pid = .ok project →
      s.client.newRequestFail "PUT"
        ("projects/" ++ pesc project ++ "/merge_requests/" ++ toString mr ++ "/approvers") (RequestBody.allowedApprovers oW) options = some e →
      doCount (s.ChangeAllowedApprovers pesc pid mr oW options).trace = 0) ∧
    (∀ project e, parseID pid = .ok project →
      s.client.newRequestFail "POST"
        ("projects/" ++ pesc project ++ "/approvals") (RequestBody.projectSettings oP) options = some e →
      doCount (s.ChangeProjectMergeRequestApprovalConfiguration pesc pid oP options).trace = 0) := by
  refine ⟨?_, ?_, ?_, ?_, ?_, ?_, ?_, ?_, ?_, ?_, ?_, ?_, ?_, ?_, ?_⟩
  · rcases ApproveMergeRequest_run_cases s pesc pid mr oA options with
        ⟨e, hpe, hout⟩ | ⟨p, e, hpe, hn, hout⟩ | ⟨p, r, e, hpe, hn, hd, hout⟩ |
        ⟨p, resp, hpe, hn, hd, hout⟩ <;>
      rw [hout] <;> simp [doCount, List.filter, Event.isDo]
  · rcases UnapproveMergeRequest_run_cases s pesc pid mr options with
        ⟨e, hpe, hout⟩ | ⟨p, e, hpe, hn, hout⟩ | ⟨p, r, e, hpe, hn, hd, hout⟩ |
        ⟨p, resp, hpe, hn, hd, hout⟩ <;>
      rw [hout] <;> simp [doCount, List.filter, Event.isDo]
  · rcases ChangeApprovalConfiguration_run_cases s pesc pid mr oC options with
        ⟨e, hpe, hout⟩ | ⟨p, e, hpe, hn, hout⟩ | ⟨p, r, e, hpe, hn, hd, hout⟩ |
        ⟨p, resp, hpe, hn, hd, hout⟩ <;>
      rw [hout] <;> simp [doCount, List.filter, Event.isDo]
  · rcases ChangeAllowedApprovers_run_cases s pesc pid mr oW options with
        ⟨e, hpe, hout⟩ | ⟨p, e, hpe, hn, hout⟩ | ⟨p, r, e, hpe, hn, hd, hout⟩ |
        ⟨p, resp, hpe, hn, hd, hout⟩ <;>
      rw [hout] <;> simp [doCount, List.filter, Event.isDo]
  · rcases ChangeProjectMergeRequestApprovalConfiguration_run_cases s pesc pid oP options with
        ⟨e, hpe, hout⟩ | ⟨p, e, hpe, hn, hout⟩ | ⟨p, r, e, hpe, hn, hd, hout⟩ |
        ⟨p, resp, hpe, hn, hd, hout⟩ <;>
      rw [hout] <;> simp [doCount, List.filter, Event.isDo]
  · intro e0 hpe0
    rcases ApproveMergeRequest_run_cases s pesc pid mr oA options with
        ⟨e, hpe, hout⟩ | ⟨p, e, hpe, hn, hout⟩ | ⟨p, r, e, hpe, hn, hd, hout⟩ |
        ⟨p, resp, hpe, hn, hd, hout⟩
    · rw [hout]; simp [doCount]
    · simp [hpe0] at hpe
    · simp [hpe0] at hpe
    · simp [hpe0] at hpe
  · intro e0 hpe0
    rcases UnapproveMergeRequest_run_cases s pesc pid mr options with
        ⟨e, hpe, hout⟩ | ⟨p, e, hpe, hn, hout⟩ | ⟨p, r, e, hpe, hn, hd, hout⟩ |
        ⟨p, resp, hpe, hn, hd, hout⟩
    · rw [hout]; simp [doCount]
    · simp [hpe0] at hpe
    · simp [hpe0] at hpe
    · simp [hpe0] at hpe
  · intro e0 hpe0
    rcases ChangeApprovalConfiguration_run_cases s pesc pid mr oC options with
        ⟨e, hpe, hout⟩ | ⟨p, e, hpe, hn, hout⟩ | ⟨p, r, e, hpe, hn, hd, hout⟩ |
        ⟨p, resp, hpe, hn, hd, hout⟩
    · rw [hout]; simp [doCount]
    · simp [hpe0] at hpe
    · simp [hpe0] at hpe
    · simp [hpe0] at hpe
  · intro e0 hpe0
    rcases ChangeAllowedApprovers_run_cases s pesc pid mr oW options with
        ⟨e, hpe, hout⟩ | ⟨p, e, hpe, hn, hout⟩ | ⟨p, r, e, hpe, hn, hd, hout⟩ |
        ⟨p, resp, hpe, hn, hd, hout⟩
    · rw [hout]; simp [doCount]
    · simp [hpe0] at hpe
    · simp [hpe0] at hpe
    · simp [hpe0] at hpe
  · intro e0 hpe0
    rcases ChangeProjectMergeRequestApprovalConfiguration_run_cases s pesc pid oP options with
        ⟨e, hpe, hout⟩ | ⟨p, e, hpe, hn, hout⟩ | ⟨p, r, e, hpe, hn, hd, hout⟩ |
        ⟨p, resp, hpe, hn, hd, hout⟩
    · rw [hout]; simp [doCount]
    · simp [hpe0] at hpe
    · simp [hpe0] at hpe
    · simp [hpe0] at hpe
  · intro project e0 hp hn0
    rcases ApproveMergeRequest_run_cases s pesc pid mr oA options with
        ⟨e, hpe, hout⟩ | ⟨p, e, hpe, hn, hout⟩ | ⟨p, r, e, hpe, hn, hd, hout⟩ |
        ⟨p, resp, hpe, hn, hd, hout⟩
    · simp [hp] at hpe
    · rw [hout]; simp [doCount, List.filter, Event.isDo]
    · rw [hp] at hpe; injection hpe with h; subst h; simp [hn0] at hn
    · rw [hp] at hpe; injection hpe with h; subst h; simp [hn0] at hn
  · intro project e0 hp hn0
    rcases UnapproveMergeRequest_run_cases s pesc pid mr options with
        ⟨e, hpe, hout⟩ | ⟨p, e, hpe, hn, hout⟩ | ⟨p, r, e, hpe, hn, hd, hout⟩ |
        ⟨p, resp, hpe, hn, hd, hout⟩
    · simp [hp] at hpe
    · rw [hout]; simp [doCount, List.filter, Event.isDo]
    · rw [hp] at hpe; injection hpe with h; subst h; simp [hn0] at hn
    · rw [hp] at hpe; injection hpe with h; subst h; simp [hn0] at hn
  · intro project e0 hp hn0
    rcases ChangeApprovalConfiguration_run_cases s pesc pid mr oC options with
        ⟨e, hpe, hout⟩ | ⟨p, e, hpe, hn, hout⟩ | ⟨p, r, e, hpe, hn, hd, hout⟩ |
        ⟨p, resp, hpe, hn, hd, hout⟩
    · simp [hp] at hpe
    · rw [hout]; simp [doCount, List.filter, Event.isDo]
    · rw [hp] at hpe; injection hpe with h; subst h; simp [hn0] at hn
    · rw [hp] at hpe; injection hpe with h; subst h; simp [hn0] at hn
  · intro project e0 hp hn0
    rcases ChangeAllowedApprovers_run_cases s pesc pid mr oW options with
        ⟨e, hpe, hout⟩ | ⟨p, e, hpe, hn, hout⟩ | ⟨p, r, e, hpe, hn, hd, hout⟩ |
        ⟨p, resp, hpe, hn, hd, hout⟩
    · simp [hp] at hpe
    · rw [hout]; simp [doCount, List.filter, Event.isDo]
    · rw [hp] at hpe; injection hpe with h; subst h; simp [hn0] at hn
    · rw [hp] at hpe; injection hpe with h; subst h; simp [hn0] at hn
  · intro project e0 hp hn0
    rcases ChangeProjectMergeRequestApprovalConfiguration_run_cases s pesc pid oP options with
        ⟨e, hpe, hout⟩ | ⟨p, e, hpe, hn, hout⟩ | ⟨p, r, e, hpe, hn, hd, hout⟩ |
        ⟨p, resp, hpe, hn, hd, hout⟩
    · simp [hp] at hpe
    · rw [hout]; simp [doCount, List.filter, Event.isDo]
    · rw [hp] at hpe; injection hpe with h; subst h; simp [hn0] at hn
    · rw [hp] at hpe; injection hpe with h; subst h; simp [hn0] at hn

theorem at_most_one_request_cycle_witness :
    parseID (PID.other "3.14") =
      Except.error ⟨"invalid ID type 3.14, the ID must be an int or a string"⟩ ∧
    doCount (okService.ApproveMergeRequest (fun x => x) (PID.other "3.14") 2 none []).trace = 0 :=
  ⟨rfl, (at_most_one_request_cycle okService (fun x => x) (PID.other "3.14") 2
    none none none none []).2.2.2.2.2.1
    ⟨"invalid ID type 3.14, the ID must be an int or a string"⟩ rfl⟩

/-- C9: for every method, if `parseID` rejects the project identifier, the
method returns the parse error together with a nil Response and a nil result
struct, and neither builds nor issues any HTTP request — the outcome is
exactly the error record with an empty event trace. -/
theorem parse_failure_no_request
    (s : MergeRequestApprovalsService) (pesc : String → String) (pid : PID) (mr : Int)
    (oA : Option ApproveMergeRequestOptions)
    (oC : Option ChangeMergeRequestApprovalConfigurationOptions)
    (oW : Option ChangeMergeRequestAllowedApproversOptions)
    (oP : Option ProjectMergeRequestApprovalSettings)
    (options : List OptionFunc) (e : GoError) (hp : parseID pid = .error e) :
    s.ApproveMergeRequest pesc pid mr oA options = ⟨none, none, some e, [], s, oA⟩ ∧
    s.UnapproveMergeRequest pesc pid mr options = ⟨none, some e, [], s⟩ ∧
    s.ChangeApprovalConfiguration pesc pid mr oC options = ⟨none, none, some e, [], s, oC⟩ ∧
    s.ChangeAllowedApprovers pesc pid mr oW options = ⟨none, none, some e, [], s, oW⟩ ∧
    s.ChangeProjectMergeRequestApprovalConfiguration pesc pid oP options =
      ⟨none, none, some e, [], s, oP⟩ := by
  refine ⟨?_, ?_, ?_, ?_, ?_⟩
  · simp [MergeRequestApprovalsService.ApproveMergeRequest, hp]
  · simp [MergeRequestApprovalsService.UnapproveMergeRequest, hp]
  · simp [MergeRequestApprovalsService.ChangeApprovalConfiguration, hp]
  · simp [MergeRequestApprovalsService.ChangeAllowedApprovers, hp]
  · simp [MergeRequestApprovalsService.ChangeProjectMergeRequestApprovalConfiguration, hp]

theorem parse_failure_no_request_witness :
    parseID (PID.other "struct") =
      Except.error ⟨"invalid ID type struct, the ID must be an int or a string"⟩ ∧
    okService.ApproveMergeRequest (fun x => x) (PID.other "struct") 4 none [] =
      ⟨none, none, some ⟨"invalid ID type struct, the ID must be an int or a string"⟩, [],
        okService, none⟩ :=
  ⟨rfl, (parse_failure_no_request okService (fun x => x) (PID.other "struct") 4
    none none none none []
    ⟨"invalid ID type struct, the ID must be an int or a string"⟩ rfl).1⟩

/-- C8: no method mutates any local state: for every invocation, the service
struct (including its client field) and the options struct it was given are
the same after the call as before it; the only effects recorded are the
request construction and the network call itself. -/
theorem no_local_state_mutation
    (s : MergeRequestApprovalsService) (pesc : String → String) (pid : PID) (mr : Int)
    (oA : Option ApproveMergeRequestOptions)
    (oC : Option ChangeMergeRequestApprovalConfigurationOptions)
    (oW : Option ChangeMergeRequestAllowedApproversOptions)
    (oP : Option ProjectMergeRequestApprovalSettings)
    (options : List OptionFunc) :
    (s.ApproveMergeRequest pesc pid mr oA options).sFinal = s ∧
    (s.ApproveMergeRequest pesc pid mr oA options).optFinal = oA ∧
    (s.UnapproveMergeRequest pesc pid mr options).sFinal = s ∧
    (s.ChangeApprovalConfiguration pesc pid mr oC options).sFinal = s ∧
    (s.ChangeApprovalConfiguration pesc pid mr oC options).optFinal = oC ∧
    (s.ChangeAllowedApprovers pesc pid mr oW options).sFinal = s ∧
    (s.ChangeAllowedApprovers pesc pid mr oW options).optFinal = oW ∧
    (s.ChangeProjectMergeRequestApprovalConfiguration pesc pid oP options).sFinal = s ∧
    (s.ChangeProjectMergeRequestApprovalConfiguration pesc pid oP options).optFinal = oP := by
  refine ⟨?_, ?_, ?_, ?_, ?_, ?_, ?_, ?_, ?_⟩
  · rcases ApproveMergeRequest_run_cases s pesc pid mr oA options with
        ⟨e, hpe, hout⟩ | ⟨p, e, hpe, hn, hout⟩ | ⟨p, r, e, hpe, hn, hd, hout⟩ |
        ⟨p, resp, hpe, hn, hd, hout⟩ <;> rw [hout]
  · rcases ApproveMergeRequest_run_cases s pesc pid mr oA options with
        ⟨e, hpe, hout⟩ | ⟨p, e, hpe, hn, hout⟩ | ⟨p, r, e, hpe, hn, hd, hout⟩ |
        ⟨p, resp, hpe, hn, hd, hout⟩ <;> rw [hout]
  · rcases UnapproveMergeRequest_run_cases s pesc pid mr options with
        ⟨e, hpe, hout⟩ | ⟨p, e, hpe, hn, hout⟩ | ⟨p, r, e, hpe, hn, hd, hout⟩ |
        ⟨p, resp, hpe, hn, hd, hout⟩ <;> rw [hout]
  · rcases ChangeApprovalConfiguration_run_cases s pesc pid mr oC options with
        ⟨e, hpe, hout⟩ | ⟨p, e, hpe, hn, hout⟩ | ⟨p, r, e, hpe, hn, hd, hout⟩ |
        ⟨p, resp, hpe, hn, hd, hout⟩ <;> rw [hout]
  · rcases ChangeApprovalConfiguration_run_cases s pesc pid mr oC options with
        ⟨e, hpe, hout⟩ | ⟨p, e, hpe, hn, hout⟩ | ⟨p, r, e, hpe, hn, hd, hout⟩ |
        ⟨p, resp, hpe, hn, hd, hout⟩ <;> rw [hout]
  · rcases ChangeAllowedApprovers_run_cases s pesc pid mr oW options with
        ⟨e, hpe, hout⟩ | ⟨p, e, hpe, hn, hout⟩ | ⟨p, r, e, hpe, hn, hd, hout⟩ |
        ⟨p, resp, hpe, hn, hd, hout⟩ <;> rw [hout]
  · rcases ChangeAllowedApprovers_run_cases s pesc pid mr oW options with
        ⟨e, hpe, hout⟩ | ⟨p, e, hpe, hn, hout⟩ | ⟨p, r, e, hpe, hn, hd, hout⟩ |
        ⟨p, resp, hpe, hn, hd, hout⟩ <;> rw [hout]
  · rcases ChangeProjectMergeRequestApprovalConfiguration_run_cases s pesc pid oP options with
        ⟨e, hpe, hout⟩ | ⟨p, e, hpe, hn, hout⟩ | ⟨p, r, e, hpe, hn, hd, hout⟩ |
        ⟨p, resp, hpe, hn, hd, hout⟩ <;> rw [hout]
  · rcases ChangeProjectMergeRequestApprovalConfiguration_run_cases s pesc pid oP options with
        ⟨e, hpe, hout⟩ | ⟨p, e, hpe, hn, hout⟩ | ⟨p, r, e, hpe, hn, hd, hout⟩ |
        ⟨p, resp, hpe, hn, hd, hout⟩ <;> rw [hout]
